import Mathlib

/-!
Shallow embedding of the control-plane core of the TSCS42xx ALSA codec driver
(`src/sound/soc/codecs/tscs42xx.c`).

Modelling conventions:
* The numeric register addresses and bit masks live in the header
  `tscs42xx.h`, which is not part of this repository's sources; registers are
  therefore modelled as an enumerated type `Reg` (identity and distinctness of
  addresses is all the control logic depends on), and the mask/value constants
  from the header are modelled as distinct symbolic numerals.
* Every hardware bus transaction (register read, write, masked update, bulk
  write) is logged in a trace and draws its outcome from an environment
  oracle `Env`: the n-th transaction of a run receives `env.res n`.  An
  `Except.error e` outcome models a failing bus transaction returning the
  negative errno `-(e+1)` (`Int.negSucc e`), so modelled errors are negative
  by construction, matching the kernel convention the driver branches on
  (`ret < 0`).  An `Except.ok v` outcome models success; for reads of the
  volatile status registers (`R_PLLCTL0`, `R_DACCRSTAT`) `v` is the value the
  hardware reports.
* `msleep` delays and the three mutexes are not modelled: all modelled
  operations are sequential, which is exactly the serialization the locks
  enforce for the properties considered here.
* The unbounded `do { } while` busy poll on `R_DACCRSTAT` in
  `coefficient_ram_write` is modelled with explicit fuel; exhausted fuel
  returns the marker `pollFuelOut`, which no real path of the C code returns.
-/

namespace Tscs42xx

/-- Registers touched by the modelled control paths of `tscs42xx.c`. -/
inductive Reg where
  | R_PLLCTL0
  | R_PLLCTL1C
  | R_DACCRSTAT
  | R_DACCRADDR
  | R_DACCRWRL
  | R_DACSR
  | R_ADCSR
  | R_CNVRTR0
  | R_CNVRTR1
  | R_TIMEBASE
  | R_PLLCTLD
  | R_PLLCTL1B
  | R_PLLCTL9
  | R_PLLCTLA
  | R_PLLCTLB
  | R_PLLCTLC
  | R_PLLCTL12
  | R_PLLCTLE
  | R_PLLCTLF
  | R_PLLCTL10
  | R_PLLCTL11
  deriving DecidableEq

/-- One hardware bus transaction, as logged in the trace. -/
inductive HwOp where
  | read (reg : Reg)
  | write (reg : Reg) (val : Nat)
  | updateBits (reg : Reg) (mask val : Nat)
  | bulkWrite (reg : Reg) (bytes : List Nat)
  deriving DecidableEq

/-- The register an operation addresses. -/
def HwOp.reg : HwOp → Reg
  | .read r => r
  | .write r _ => r
  | .updateBits r _ _ => r
  | .bulkWrite r _ => r

/-- Model of `struct tscs42xx_priv` (tscs42xx.c:57) plus the observable
hardware state: the register image, the hardware coefficient store behind the
indirect `R_DACCRADDR`/`R_DACCRWRL` protocol, and the transaction trace.
The `bclk_ratio` field of the C struct is set only by
`tscs42xx_set_dai_bclk_ratio`, which no modelled path reads, and is omitted. -/
structure DriverState where
  regs : Reg → Nat
  coeffHw : Nat → Nat
  coeff_ram : Nat → Nat
  coeff_ram_synced : Bool
  samplerate : Int
  trace : List HwOp

/-- Environment oracle: outcome of the n-th hardware transaction of a run.
`.error e` is a bus failure with errno `Int.negSucc e`; `.ok v` is success,
with `v` the value read for volatile status registers. -/
structure Env where
  res : Nat → Except Nat Nat

/-- Append one transaction to the trace. -/
def logOp (s : DriverState) (op : HwOp) : DriverState :=
  { s with trace := s.trace ++ [op] }

/-- Errno `EINVAL` (the driver returns `-EINVAL`). -/
def EINVAL : Int := 22

/-- Errno `ENOMSG` (the driver returns `-ENOMSG` on PLL lock timeout). -/
def ENOMSG : Int := 42

/-- Marker returned when the modelled busy-poll fuel runs out; the C loop
would keep polling instead, so no theorem relies on this value. -/
def pollFuelOut : Int := -1000

/-- Masked update of a register image, as `snd_soc_update_bits` performs it
on an 8-bit register: `new = (old AND NOT mask) OR (val AND mask)`. -/
def updBits (regs : Reg → Nat) (reg : Reg) (mask val : Nat) : Reg → Nat :=
  fun r => if r = reg then (regs reg &&& (255 ^^^ mask)) ||| (val &&& mask) else regs r

/-- Model of `snd_soc_read` as used on the volatile status registers
`R_PLLCTL0` and `R_DACCRSTAT`: returns the negative errno on failure, the
hardware-reported value (from the environment) on success. -/
def snd_soc_read (env : Env) (s : DriverState) (reg : Reg) : Int × DriverState :=
  match env.res s.trace.length with
  | .error e => (Int.negSucc e, logOp s (.read reg))
  | .ok v => (Int.ofNat v, logOp s (.read reg))

/-- Model of `snd_soc_update_bits`: a masked read-modify-write that returns a
negative errno on failure; on success the register image is updated.  The
driver only ever branches on the sign of the result. -/
def snd_soc_update_bits (env : Env) (s : DriverState) (reg : Reg) (mask val : Nat) :
    Int × DriverState :=
  match env.res s.trace.length with
  | .error e => (Int.negSucc e, logOp s (.updateBits reg mask val))
  | .ok _ => (0, { logOp s (.updateBits reg mask val) with regs := updBits s.regs reg mask val })

/-- Model of `regmap_write`, used for the coefficient-RAM address cursor
`R_DACCRADDR` (tscs42xx.c:215). -/
def regmap_write (env : Env) (s : DriverState) (reg : Reg) (val : Nat) : Int × DriverState :=
  match env.res s.trace.length with
  | .error e => (Int.negSucc e, logOp s (.write reg val))
  | .ok _ =>
      (0, { logOp s (.write reg val) with
              regs := fun r => if r = reg then val else s.regs r })

/-- Model of `regmap_bulk_write` on the 3-byte coefficient write port
`R_DACCRWRL` (tscs42xx.c:222): on success the hardware commits the three
bytes to the coefficient slot currently addressed by `R_DACCRADDR`. -/
def regmap_bulk_write_coeff (env : Env) (s : DriverState) (b0 b1 b2 : Nat) :
    Int × DriverState :=
  match env.res s.trace.length with
  | .error e => (Int.negSucc e, logOp s (.bulkWrite Reg.R_DACCRWRL [b0, b1, b2]))
  | .ok _ =>
      (0, { logOp s (.bulkWrite Reg.R_DACCRWRL [b0, b1, b2]) with
              coeffHw := fun i =>
                if i = s.regs Reg.R_DACCRADDR * 3 then b0
                else if i = s.regs Reg.R_DACCRADDR * 3 + 1 then b1
                else if i = s.regs Reg.R_DACCRADDR * 3 + 2 then b2
                else s.coeffHw i })

/-- `COEFF_SIZE` (tscs42xx.c:39): bytes per coefficient slot. -/
def COEFF_SIZE : Nat := 3

/-- `BIQUAD_COEFF_COUNT` (tscs42xx.c:42). -/
def BIQUAD_COEFF_COUNT : Nat := 5

/-- `BIQUAD_SIZE` (tscs42xx.c:43). -/
def BIQUAD_SIZE : Nat := COEFF_SIZE * BIQUAD_COEFF_COUNT

/-- `COEFF_RAM_MAX_ADDR` (tscs42xx.c:46). -/
def COEFF_RAM_MAX_ADDR : Nat := 0xcd

/-- `COEFF_RAM_COEFF_COUNT` (tscs42xx.c:47). -/
def COEFF_RAM_COEFF_COUNT : Nat := COEFF_RAM_MAX_ADDR + 1

/-- `COEFF_RAM_SIZE` (tscs42xx.c:48). -/
def COEFF_RAM_SIZE : Nat := COEFF_SIZE * COEFF_RAM_COEFF_COUNT

/-- Modelled from the spec: the power-down-bit mask of PLL unit 1 in
`R_PLLCTL1C`; the numeric bit position lives in the missing header
`tscs42xx.h`, only distinctness from the PLL2 bit matters here. -/
def RM_PLLCTL1C_PDB_PLL1 : Nat := 0x01

/-- Modelled from the spec: enable value for PLL unit 1 (header missing). -/
def RV_PLLCTL1C_PDB_PLL1_ENABLE : Nat := 0x01

/-- Modelled from the spec: disable value for PLL unit 1 (header missing). -/
def RV_PLLCTL1C_PDB_PLL1_DISABLE : Nat := 0x00

/-- Modelled from the spec: the power-down-bit mask of PLL unit 2 in
`R_PLLCTL1C` (header missing). -/
def RM_PLLCTL1C_PDB_PLL2 : Nat := 0x02

/-- Modelled from the spec: enable value for PLL unit 2 (header missing). -/
def RV_PLLCTL1C_PDB_PLL2_ENABLE : Nat := 0x02

/-- Modelled from the spec: disable value for PLL unit 2 (header missing). -/
def RV_PLLCTL1C_PDB_PLL2_DISABLE : Nat := 0x00

/-- Modelled from the spec: DAC mute bit mask in `R_CNVRTR1` (header missing). -/
def RM_CNVRTR1_DACMU : Nat := 0x01

/-- Modelled from the spec: DAC mute assert value (header missing). -/
def RV_CNVRTR1_DACMU_ENABLE : Nat := 0x01

/-- Modelled from the spec: DAC mute deassert value (header missing). -/
def RV_CNVRTR1_DACMU_DISABLE : Nat := 0x00

/-- Modelled from the spec: ADC mute bit mask in `R_CNVRTR0` (header missing). -/
def RM_CNVRTR0_ADCMU : Nat := 0x01

/-- Modelled from the spec: ADC mute assert value (header missing). -/
def RV_CNVRTR0_ADCMU_ENABLE : Nat := 0x01

/-- Modelled from the spec: ADC mute deassert value (header missing). -/
def RV_CNVRTR0_ADCMU_DISABLE : Nat := 0x00

/-- Modelled from the spec: bit-rate-divisor field mask of `R_DACSR`
(header missing; also applied to `R_ADCSR`, exactly as the C code does). -/
def RM_DACSR_DBR : Nat := 0x07

/-- Modelled from the spec: bit-rate-multiplier field mask of `R_DACSR`
(header missing). -/
def RM_DACSR_DBM : Nat := 0x18

/-- Modelled from the spec: divisor code for the 32 kHz base (header missing). -/
def RV_DACSR_DBR_32 : Nat := 0

/-- Modelled from the spec: divisor code for the 44.1 kHz base (header missing). -/
def RV_DACSR_DBR_44_1 : Nat := 1

/-- Modelled from the spec: divisor code for the 48 kHz base (header missing). -/
def RV_DACSR_DBR_48 : Nat := 2

/-- Modelled from the spec: multiplier code 0.25 (header missing). -/
def RV_DACSR_DBM_PT25 : Nat := 0

/-- Modelled from the spec: multiplier code 0.5 (header missing). -/
def RV_DACSR_DBM_PT5 : Nat := 0x08

/-- Modelled from the spec: multiplier code 1 (header missing). -/
def RV_DACSR_DBM_1 : Nat := 0x10

/-- Modelled from the spec: multiplier code 2 (header missing). -/
def RV_DACSR_DBM_2 : Nat := 0x18

/-- `MAX_PLL_LOCK_20MS_WAITS` (tscs42xx.c:128). -/
def MAX_PLL_LOCK_20MS_WAITS : Nat := 1

/-- `plls_locked` (tscs42xx.c:129): polls `R_PLLCTL0`; a read failure or a
zero status within the retry budget yields `false`, a positive status yields
`true`.  With `MAX_PLL_LOCK_20MS_WAITS = 1` the do-while loop runs at most
twice, which is unrolled here (the `msleep(20)` between polls is untimed). -/
def plls_locked (env : Env) (s : DriverState) : Bool × DriverState :=
  let (r1, s1) := snd_soc_read env s Reg.R_PLLCTL0
  if r1 < 0 then (false, s1)
  else if 0 < r1 then (true, s1)
  else
    let (r2, s2) := snd_soc_read env s1 Reg.R_PLLCTL0
    if r2 < 0 then (false, s2)
    else if 0 < r2 then (true, s2)
    else (false, s2)

/-- `sample_rate_to_pll_freq_out` (tscs42xx.c:149). -/
def sample_rate_to_pll_freq_out (sample_rate : Int) : Int :=
  if sample_rate = 11025 ∨ sample_rate = 22050 ∨
      sample_rate = 44100 ∨ sample_rate = 88200 then 112896000
  else if sample_rate = 8000 ∨ sample_rate = 16000 ∨ sample_rate = 32000 ∨
      sample_rate = 48000 ∨ sample_rate = 96000 then 122880000
  else -EINVAL

/-- `power_down_audio_plls` (tscs42xx.c:168): two masked disable writes, one
per PLL unit; the C code jumps to `exit` on the first failure, so a failing
first write returns immediately without issuing the second. -/
def power_down_audio_plls (env : Env) (s : DriverState) : Int × DriverState :=
  let (ret, s1) := snd_soc_update_bits env s Reg.R_PLLCTL1C
      RM_PLLCTL1C_PDB_PLL1 RV_PLLCTL1C_PDB_PLL1_DISABLE
  if ret < 0 then (ret, s1)
  else
    let (ret2, s2) := snd_soc_update_bits env s1 Reg.R_PLLCTL1C
        RM_PLLCTL1C_PDB_PLL2 RV_PLLCTL1C_PDB_PLL2_DISABLE
    if ret2 < 0 then (ret2, s2) else (0, s2)

/-- The busy poll on `R_DACCRSTAT` in `coefficient_ram_write`
(tscs42xx.c:206-213): reads until the status is zero, propagating a read
failure; fuel bounds the modelled loop (the C loop is unbounded). -/
def poll_daccrstat (env : Env) : Nat → DriverState → Int × DriverState
  | 0, s => (pollFuelOut, s)
  | fuel + 1, s =>
      let (ret, s1) := snd_soc_read env s Reg.R_DACCRSTAT
      if ret < 0 then (ret, s1)
      else if ret = 0 then (0, s1)
      else poll_daccrstat env fuel s1

/-- One iteration of the loop body of `coefficient_ram_write`
(tscs42xx.c:204-230): poll the busy bit, write the slot address to
`R_DACCRADDR`, bulk-write the slot's 3 bytes from `coeff_ram` to the write
port; any failure aborts. -/
def coeff_write_one (env : Env) (fuel : Nat) (ram : Nat → Nat) (addr : Nat)
    (s : DriverState) : Int × DriverState :=
  let (ret, s1) := poll_daccrstat env fuel s
  if ret < 0 then (ret, s1)
  else
    let (ret2, s2) := regmap_write env s1 Reg.R_DACCRADDR addr
    if ret2 < 0 then (ret2, s2)
    else
      let (ret3, s3) := regmap_bulk_write_coeff env s2
          (ram (addr * COEFF_SIZE)) (ram (addr * COEFF_SIZE + 1))
          (ram (addr * COEFF_SIZE + 2))
      if ret3 < 0 then (ret3, s3) else (0, s3)

/-- `coefficient_ram_write` (tscs42xx.c:197): flushes `coeff_cnt` consecutive
slots of `ram` starting at `addr` through the indirect protocol, aborting on
the first failure. -/
def coefficient_ram_write (env : Env) (fuel : Nat) (ram : Nat → Nat) :
    Nat → Nat → DriverState → Int × DriverState
  | _, 0, s => (0, s)
  | addr, cnt + 1, s =>
      let (ret, s1) := coeff_write_one env fuel ram addr s
      if ret < 0 then (ret, s1)
      else coefficient_ram_write env fuel ram (addr + 1) cnt s1

/-- `coefficient_ram_sync` (tscs42xx.c:235): if the shadow is dirty, flush
all `COEFF_RAM_COEFF_COUNT` slots starting at address 0 and mark it synced
on success; if already synced, do nothing. -/
def coefficient_ram_sync (env : Env) (fuel : Nat) (s : DriverState) : Int × DriverState :=
  if s.coeff_ram_synced = false then
    let (ret, s1) := coefficient_ram_write env fuel s.coeff_ram 0 COEFF_RAM_COEFF_COUNT s
    if ret < 0 then (ret, s1)
    else (0, { s1 with coeff_ram_synced := true })
  else (0, s)

/-- `do_pll_lock_dependent_work` (tscs42xx.c:257). -/
def do_pll_lock_dependent_work (env : Env) (fuel : Nat) (s : DriverState) :
    Int × DriverState :=
  coefficient_ram_sync env fuel s

/-- The body of `power_up_audio_plls` after the PLL unit has been selected
(tscs42xx.c:286-308): enable the unit, confirm lock, then run the
lock-dependent work (the coefficient-RAM resync). -/
def power_up_with (env : Env) (fuel : Nat) (s : DriverState) (mask val : Nat) :
    Int × DriverState :=
  let (ret, s1) := snd_soc_update_bits env s Reg.R_PLLCTL1C mask val
  if ret < 0 then (ret, s1)
  else
    let (locked, s2) := plls_locked env s1
    if locked then
      let (ret2, s3) := do_pll_lock_dependent_work env fuel s2
      if ret2 < 0 then (ret2, s3) else (0, s3)
    else (-ENOMSG, s2)

/-- `power_up_audio_plls` (tscs42xx.c:262): classify the sample rate into a
PLL output frequency, pick the PLL unit for it, and run the enable /
lock-wait / resync sequence; an unclassifiable rate returns `-EINVAL` before
any register write. -/
def power_up_audio_plls (env : Env) (fuel : Nat) (s : DriverState) : Int × DriverState :=
  let freq_out := sample_rate_to_pll_freq_out s.samplerate
  if freq_out = 122880000 then
    power_up_with env fuel s RM_PLLCTL1C_PDB_PLL1 RV_PLLCTL1C_PDB_PLL1_ENABLE
  else if freq_out = 112896000 then
    power_up_with env fuel s RM_PLLCTL1C_PDB_PLL2 RV_PLLCTL1C_PDB_PLL2_ENABLE
  else (-EINVAL, s)

/-- Write a list of bytes into a byte-addressed buffer starting at `base`
(the `memcpy` into the shadow at tscs42xx.c:372). -/
def writeBytes : (Nat → Nat) → Nat → List Nat → (Nat → Nat)
  | f, _, [] => f
  | f, base, b :: bs => writeBytes (fun i => if i = base then b else f i) (base + 1) bs

/-- Read `n` bytes from a byte-addressed buffer starting at `base`
(the `memcpy` out of the shadow at tscs42xx.c:337). -/
def readBytes (f : Nat → Nat) : Nat → Nat → List Nat
  | _, 0 => []
  | base, n + 1 => f base :: readBytes f (base + 1) n

/-- The shadow mutation `tscs_dsp_put` performs before its flush decision
(tscs42xx.c:370-373): mark the cache dirty and copy the payload into the
shadow at the control's slot address. -/
def put_shadow (s : DriverState) (addr : Nat) (bytes : List Nat) : DriverState :=
  { s with coeff_ram_synced := false,
           coeff_ram := writeBytes s.coeff_ram (addr * COEFF_SIZE) bytes }

/-- `tscs_dsp_put` (tscs42xx.c:346, the `USE_BYTES_EXT` variant): validate
the payload size, copy it into the shadow and mark the cache dirty, then, if
the PLL reports locked, immediately flush the written slot range and mark
the cache synced on flush success; if the PLL is not locked the write is
left pending and the call succeeds. -/
def tscs_dsp_put (env : Env) (fuel : Nat) (addr : Nat) (bytes : List Nat)
    (s : DriverState) : Int × DriverState :=
  let val_size := bytes.length
  if val_size = COEFF_SIZE ∨ val_size = BIQUAD_SIZE then
    let s0 := put_shadow s addr bytes
    let (locked, s1) := plls_locked env s0
    if locked then
      let (ret, s2) := coefficient_ram_write env fuel s1.coeff_ram addr
          (val_size / COEFF_SIZE) s1
      if ret < 0 then (ret, s2)
      else (0, { s2 with coeff_ram_synced := true })
    else (0, s1)
  else (-EINVAL, s)

/-- `tscs_dsp_get` (tscs42xx.c:312, the `USE_BYTES_EXT` variant): validate
the requested size and serve the bytes straight from the shadow; no hardware
transaction is involved, which the pure return type makes structural. -/
def tscs_dsp_get (addr : Nat) (val_size : Nat) (s : DriverState) : Except Int (List Nat) :=
  if val_size = COEFF_SIZE ∨ val_size = BIQUAD_SIZE then
    .ok (readBytes s.coeff_ram (addr * COEFF_SIZE) val_size)
  else .error (-EINVAL)

/-- The rate switch of `setup_sample_rate` (tscs42xx.c:1011-1055): the
divisor/multiplier register codes for each supported rate, `none` for an
unsupported one. -/
def rate_to_dacsr (rate : Int) : Option (Nat × Nat) :=
  if rate = 8000 then some (RV_DACSR_DBR_32, RV_DACSR_DBM_PT25)
  else if rate = 16000 then some (RV_DACSR_DBR_32, RV_DACSR_DBM_PT5)
  else if rate = 24000 then some (RV_DACSR_DBR_48, RV_DACSR_DBM_PT5)
  else if rate = 32000 then some (RV_DACSR_DBR_32, RV_DACSR_DBM_1)
  else if rate = 48000 then some (RV_DACSR_DBR_48, RV_DACSR_DBM_1)
  else if rate = 96000 then some (RV_DACSR_DBR_48, RV_DACSR_DBM_2)
  else if rate = 11025 then some (RV_DACSR_DBR_44_1, RV_DACSR_DBM_PT25)
  else if rate = 22050 then some (RV_DACSR_DBR_44_1, RV_DACSR_DBM_PT5)
  else if rate = 44100 then some (RV_DACSR_DBR_44_1, RV_DACSR_DBM_1)
  else if rate = 88200 then some (RV_DACSR_DBR_44_1, RV_DACSR_DBM_2)
  else none

/-- `setup_sample_rate` (tscs42xx.c:1005): map the rate to its register
codes (unrecognized rates fail with `-EINVAL` before any register write),
apply them to the DAC and ADC sample-rate registers, and only after all four
masked updates succeed commit the rate into the audio-parameter state. -/
def setup_sample_rate (env : Env) (rate : Int) (s : DriverState) : Int × DriverState :=
  match rate_to_dacsr rate with
  | none => (-EINVAL, s)
  | some (br, bm) =>
      let (r1, s1) := snd_soc_update_bits env s Reg.R_DACSR RM_DACSR_DBR br
      if r1 < 0 then (r1, s1)
      else
        let (r2, s2) := snd_soc_update_bits env s1 Reg.R_DACSR RM_DACSR_DBM bm
        if r2 < 0 then (r2, s2)
        else
          let (r3, s3) := snd_soc_update_bits env s2 Reg.R_ADCSR RM_DACSR_DBR br
          if r3 < 0 then (r3, s3)
          else
            let (r4, s4) := snd_soc_update_bits env s3 Reg.R_ADCSR RM_DACSR_DBM bm
            if r4 < 0 then (r4, s4)
            else (0, { s4 with samplerate := rate })

/-- `dac_unmute` (tscs42xx.c:1283): power the PLL up; on failure propagate
without touching the mute bit; on success deassert the DAC mute bit, and if
that fails power the PLL back down and propagate the unmute error. -/
def dac_unmute (env : Env) (fuel : Nat) (s : DriverState) : Int × DriverState :=
  let (ret, s1) := power_up_audio_plls env fuel s
  if ret < 0 then (ret, s1)
  else
    let (ret2, s2) := snd_soc_update_bits env s1 Reg.R_CNVRTR1
        RM_CNVRTR1_DACMU RV_CNVRTR1_DACMU_DISABLE
    if ret2 < 0 then
      let (_, s3) := power_down_audio_plls env s2
      (ret2, s3)
    else (0, s2)

/-- `adc_unmute` (tscs42xx.c:1328): same sequence as `dac_unmute` for the
capture direction's mute bit in `R_CNVRTR0`. -/
def adc_unmute (env : Env) (fuel : Nat) (s : DriverState) : Int × DriverState :=
  let (ret, s1) := power_up_audio_plls env fuel s
  if ret < 0 then (ret, s1)
  else
    let (ret2, s2) := snd_soc_update_bits env s1 Reg.R_CNVRTR0
        RM_CNVRTR0_ADCMU RV_CNVRTR0_ADCMU_DISABLE
    if ret2 < 0 then
      let (_, s3) := power_down_audio_plls env s2
      (ret2, s3)
    else (0, s2)

/-- `struct reg_setting` (tscs42xx.c:1088). -/
structure reg_setting where
  addr : Reg
  val : Nat
  mask : Nat
  deriving DecidableEq

/-- `PLL_REG_SETTINGS_COUNT` (tscs42xx.c:1094). -/
def PLL_REG_SETTINGS_COUNT : Nat := 13

/-- `struct pll_ctl` (tscs42xx.c:1095). -/
structure pll_ctl where
  input_freq : Int
  settings : List reg_setting
  deriving DecidableEq

/-- The `PLL_CTL` table-entry macro (tscs42xx.c:1100): thirteen
(address, value, mask) triples in the fixed documented order. -/
def PLL_CTL (f : Int) (rt rd r1b_l r9 ra rb rc r12 r1b_h re rf r10 r11 : Nat) : pll_ctl :=
  { input_freq := f,
    settings := [
      ⟨Reg.R_TIMEBASE, rt, 0xFF⟩,
      ⟨Reg.R_PLLCTLD, rd, 0xFF⟩,
      ⟨Reg.R_PLLCTL1B, r1b_l, 0x0F⟩,
      ⟨Reg.R_PLLCTL9, r9, 0xFF⟩,
      ⟨Reg.R_PLLCTLA, ra, 0xFF⟩,
      ⟨Reg.R_PLLCTLB, rb, 0xFF⟩,
      ⟨Reg.R_PLLCTLC, rc, 0xFF⟩,
      ⟨Reg.R_PLLCTL12, r12, 0xFF⟩,
      ⟨Reg.R_PLLCTL1B, r1b_h, 0xF0⟩,
      ⟨Reg.R_PLLCTLE, re, 0xFF⟩,
      ⟨Reg.R_PLLCTLF, rf, 0xFF⟩,
      ⟨Reg.R_PLLCTL10, r10, 0xFF⟩,
      ⟨Reg.R_PLLCTL11, r11, 0xFF⟩ ] }

/-- `pll_ctls` (tscs42xx.c:1121): the static PLL frequency table. -/
def pll_ctls : List pll_ctl := [
  PLL_CTL 1411200 0x05 0x39 0x04 0x07 0x02 0xC3 0x04 0x1B 0x10 0x03 0x03 0xD0 0x02,
  PLL_CTL 1536000 0x05 0x1A 0x04 0x02 0x03 0xE0 0x01 0x1A 0x10 0x02 0x03 0xB9 0x01,
  PLL_CTL 2822400 0x0A 0x23 0x04 0x07 0x04 0xC3 0x04 0x22 0x10 0x05 0x03 0x58 0x02,
  PLL_CTL 3072000 0x0B 0x22 0x04 0x07 0x03 0x48 0x03 0x1A 0x10 0x04 0x03 0xB9 0x01,
  PLL_CTL 5644800 0x15 0x23 0x04 0x0E 0x04 0xC3 0x04 0x1A 0x10 0x08 0x03 0xE0 0x01,
  PLL_CTL 6144000 0x17 0x1A 0x04 0x08 0x03 0xE0 0x01 0x1A 0x10 0x08 0x03 0xB9 0x01,
  PLL_CTL 12000000 0x2E 0x1B 0x04 0x19 0x03 0x00 0x03 0x2A 0x10 0x19 0x05 0x98 0x04,
  PLL_CTL 19200000 0x4A 0x13 0x04 0x14 0x03 0x80 0x01 0x1A 0x10 0x19 0x03 0xB9 0x01,
  PLL_CTL 22000000 0x55 0x2A 0x04 0x37 0x05 0x00 0x06 0x22 0x10 0x26 0x03 0x49 0x02,
  PLL_CTL 22579200 0x57 0x22 0x04 0x31 0x03 0x20 0x03 0x1A 0x10 0x1D 0x03 0xB3 0x01,
  PLL_CTL 24000000 0x5D 0x13 0x04 0x19 0x03 0x80 0x01 0x1B 0x10 0x19 0x05 0x4C 0x02,
  PLL_CTL 24576000 0x5F 0x13 0x04 0x1D 0x03 0xB3 0x01 0x22 0x10 0x40 0x03 0x72 0x03,
  PLL_CTL 27000000 0x68 0x22 0x04 0x4B 0x03 0x00 0x04 0x2A 0x10 0x7D 0x03 0x20 0x06,
  PLL_CTL 36000000 0x8C 0x1B 0x04 0x4B 0x03 0x00 0x03 0x2A 0x10 0x7D 0x03 0x98 0x04,
  PLL_CTL 25000000 0x61 0x1B 0x04 0x37 0x03 0x2B 0x03 0x1A 0x10 0x2A 0x03 0x39 0x02,
  PLL_CTL 26000000 0x65 0x23 0x04 0x41 0x05 0x00 0x06 0x1A 0x10 0x26 0x03 0xEF 0x01,
  PLL_CTL 12288000 0x2F 0x1A 0x04 0x12 0x03 0x1C 0x02 0x22 0x10 0x20 0x03 0x72 0x03,
  PLL_CTL 40000000 0x9B 0x22 0x08 0x7D 0x03 0x80 0x04 0x23 0x10 0x7D 0x05 0xE4 0x06,
  PLL_CTL 512000 0x01 0x22 0x04 0x01 0x03 0xD0 0x02 0x1B 0x10 0x01 0x04 0x72 0x03,
  PLL_CTL 705600 0x02 0x22 0x04 0x02 0x03 0x15 0x04 0x22 0x10 0x01 0x04 0x80 0x02,
  PLL_CTL 1024000 0x03 0x22 0x04 0x02 0x03 0xD0 0x02 0x1B 0x10 0x02 0x04 0x72 0x03,
  PLL_CTL 2048000 0x07 0x22 0x04 0x04 0x03 0xD0 0x02 0x1B 0x10 0x04 0x04 0x72 0x03,
  PLL_CTL 2400000 0x08 0x22 0x04 0x05 0x03 0x00 0x03 0x23 0x10 0x05 0x05 0x98 0x04]

/-- `get_pll_ctl` (tscs42xx.c:1193): exact-match linear search of the table. -/
def get_pll_ctl (input_freq : Int) : Option pll_ctl :=
  pll_ctls.find? (fun p => p.input_freq == input_freq)

/-- The write loop of `set_pll_ctl_from_input_freq` (tscs42xx.c:1223-1233):
issue each (address, mask, value) triple as a masked update in order,
aborting on the first failure. -/
def apply_settings (env : Env) : List reg_setting → DriverState → Int × DriverState
  | [], s => (0, s)
  | r :: rest, s =>
      let (ret, s1) := snd_soc_update_bits env s r.addr r.mask r.val
      if ret < 0 then (ret, s1) else apply_settings env rest s1

/-- `set_pll_ctl_from_input_freq` (tscs42xx.c:1208): look the input
frequency up; a miss returns `-EINVAL` without touching any register, a hit
applies the 13 settings in table order. -/
def set_pll_ctl_from_input_freq (env : Env) (input_freq : Int) (s : DriverState) :
    Int × DriverState :=
  match get_pll_ctl input_freq with
  | none => (-EINVAL, s)
  | some p => apply_settings env p.settings s

/-- Register-image effect of a prefix of PLL table settings, for stating
that aborted `apply_settings` runs keep the updates already issued. -/
def applyRegsList (regs : Reg → Nat) : List reg_setting → (Reg → Nat)
  | [] => regs
  | r :: rest => applyRegsList (updBits regs r.addr r.mask r.val) rest

/-- Environment in which every hardware transaction succeeds and every
volatile-status read returns 0 (PLL unlocked, coefficient port idle). -/
def envOk : Env := ⟨fun _ => .ok 0⟩

/-- Environment in which every transaction succeeds and the PLL lock-status
poll reads 1 on the first transaction of the run (PLL locked), while later
status reads (the coefficient-port busy bit) read 0. -/
def envLocked0 : Env := ⟨fun n => if n = 0 then .ok 1 else .ok 0⟩

/-- Environment whose first transaction fails with errno `-5` and all later
ones succeed. -/
def envFail0 : Env := ⟨fun n => if n = 0 then .error 4 else .ok 0⟩

/-- A concrete quiescent driver state with a dirty shadow and empty trace. -/
def sDirty : DriverState :=
  { regs := fun _ => 0, coeffHw := fun _ => 0, coeff_ram := fun _ => 0,
    coeff_ram_synced := false, samplerate := 48000, trace := [] }

/-- A concrete driver state whose shadow is marked synced. -/
def sClean : DriverState :=
  { sDirty with coeff_ram_synced := true }

/-- Operations on the indirect coefficient-RAM port. -/
def coeffOp (op : HwOp) : Prop :=
  op.reg = Reg.R_DACCRSTAT ∨ op.reg = Reg.R_DACCRADDR ∨ op.reg = Reg.R_DACCRWRL

/-- Operations the PLL power-up path may issue: the PLL enable register, the
PLL lock-status register, and the coefficient-RAM port (via the resync). -/
def pllPathOp (op : HwOp) : Prop :=
  op.reg = Reg.R_PLLCTL1C ∨ op.reg = Reg.R_PLLCTL0 ∨ coeffOp op

/-- Invariant frame of the PLL/flush paths: the shadow, the dirty flag and
the sample rate are untouched, and the trace grows only by PLL-path
operations. -/
def FlushFrame (s s' : DriverState) : Prop :=
  s'.coeff_ram = s.coeff_ram ∧ s'.coeff_ram_synced = s.coeff_ram_synced ∧
  s'.samplerate = s.samplerate ∧
  ∃ l, s'.trace = s.trace ++ l ∧ ∀ op ∈ l, pllPathOp op

theorem FlushFrame.refl (s : DriverState) : FlushFrame s s :=
  ⟨rfl, rfl, rfl, [], by simp⟩

theorem FlushFrame.trans {s1 s2 s3 : DriverState}
    (h1 : FlushFrame s1 s2) (h2 : FlushFrame s2 s3) : FlushFrame s1 s3 := by
  obtain ⟨a1, b1, c1, l1, t1, p1⟩ := h1
  obtain ⟨a2, b2, c2, l2, t2, p2⟩ := h2
  refine ⟨a2.trans a1, b2.trans b1, c2.trans c1, l1 ++ l2, ?_, ?_⟩
  · rw [t2, t1, List.append_assoc]
  · intro op hop
    rcases List.mem_append.mp hop with h | h
    · exact p1 op h
    · exact p2 op h

theorem snd_soc_read_state (env : Env) (s : DriverState) (reg : Reg) :
    (snd_soc_read env s reg).2 = logOp s (.read reg) := by
  unfold snd_soc_read
  cases env.res s.trace.length <;> rfl

theorem snd_soc_update_bits_err (env : Env) (s : DriverState) (reg : Reg) (mask val : Nat)
    (e : Nat) (h : env.res s.trace.length = .error e) :
    snd_soc_update_bits env s reg mask val =
      (Int.negSucc e, logOp s (.updateBits reg mask val)) := by
  simp [snd_soc_update_bits, h]

theorem snd_soc_update_bits_ok (env : Env) (s : DriverState) (reg : Reg) (mask val : Nat)
    (v : Nat) (h : env.res s.trace.length = .ok v) :
    snd_soc_update_bits env s reg mask val =
      (0, { logOp s (.updateBits reg mask val) with regs := updBits s.regs reg mask val }) := by
  simp [snd_soc_update_bits, h]

theorem snd_soc_update_bits_sign (env : Env) (s : DriverState) (reg : Reg) (mask val : Nat) :
    (snd_soc_update_bits env s reg mask val).1 = 0 ∨
      (snd_soc_update_bits env s reg mask val).1 < 0 := by
  unfold snd_soc_update_bits
  cases env.res s.trace.length <;> simp [Int.negSucc_lt_zero]

theorem snd_soc_update_bits_fields (env : Env) (s : DriverState) (reg : Reg) (mask val : Nat) :
    (snd_soc_update_bits env s reg mask val).2.coeffHw = s.coeffHw ∧
    (snd_soc_update_bits env s reg mask val).2.coeff_ram = s.coeff_ram ∧
    (snd_soc_update_bits env s reg mask val).2.coeff_ram_synced = s.coeff_ram_synced ∧
    (snd_soc_update_bits env s reg mask val).2.samplerate = s.samplerate ∧
    (snd_soc_update_bits env s reg mask val).2.trace =
      s.trace ++ [HwOp.updateBits reg mask val] := by
  unfold snd_soc_update_bits
  cases env.res s.trace.length <;> simp [logOp]

theorem regmap_write_err (env : Env) (s : DriverState) (reg : Reg) (val : Nat)
    (e : Nat) (h : env.res s.trace.length = .error e) :
    regmap_write env s reg val = (Int.negSucc e, logOp s (.write reg val)) := by
  simp [regmap_write, h]

theorem regmap_write_ok (env : Env) (s : DriverState) (reg : Reg) (val : Nat)
    (v : Nat) (h : env.res s.trace.length = .ok v) :
    regmap_write env s reg val =
      (0, { logOp s (.write reg val) with
              regs := fun r => if r = reg then val else s.regs r }) := by
  simp [regmap_write, h]

theorem regmap_write_fields (env : Env) (s : DriverState) (reg : Reg) (val : Nat) :
    (regmap_write env s reg val).2.coeffHw = s.coeffHw ∧
    (regmap_write env s reg val).2.coeff_ram = s.coeff_ram ∧
    (regmap_write env s reg val).2.coeff_ram_synced = s.coeff_ram_synced ∧
    (regmap_write env s reg val).2.samplerate = s.samplerate ∧
    (regmap_write env s reg val).2.trace = s.trace ++ [HwOp.write reg val] := by
  unfold regmap_write
  cases env.res s.trace.length <;> simp [logOp]

theorem regmap_bulk_write_coeff_fields (env : Env) (s : DriverState) (b0 b1 b2 : Nat) :
    (regmap_bulk_write_coeff env s b0 b1 b2).2.regs = s.regs ∧
    (regmap_bulk_write_coeff env s b0 b1 b2).2.coeff_ram = s.coeff_ram ∧
    (regmap_bulk_write_coeff env s b0 b1 b2).2.coeff_ram_synced = s.coeff_ram_synced ∧
    (regmap_bulk_write_coeff env s b0 b1 b2).2.samplerate = s.samplerate ∧
    (regmap_bulk_write_coeff env s b0 b1 b2).2.trace =
      s.trace ++ [HwOp.bulkWrite Reg.R_DACCRWRL [b0, b1, b2]] := by
  unfold regmap_bulk_write_coeff
  cases env.res s.trace.length <;> simp [logOp]

theorem plls_locked_state (env : Env) (s : DriverState) :
    (plls_locked env s).2 = logOp s (.read Reg.R_PLLCTL0) ∨
    (plls_locked env s).2 =
      logOp (logOp s (.read Reg.R_PLLCTL0)) (.read Reg.R_PLLCTL0) := by
  unfold plls_locked
  rcases h1 : snd_soc_read env s Reg.R_PLLCTL0 with ⟨r1, s1⟩
  have hs1 : s1 = logOp s (.read Reg.R_PLLCTL0) := by
    have := snd_soc_read_state env s Reg.R_PLLCTL0
    rw [h1] at this
    exact this
  rcases h2 : snd_soc_read env s1 Reg.R_PLLCTL0 with ⟨r2, s2⟩
  have hs2 : s2 = logOp s1 (.read Reg.R_PLLCTL0) := by
    have := snd_soc_read_state env s1 Reg.R_PLLCTL0
    rw [h2] at this
    exact this
  simp only [h1, h2]
  split_ifs <;> simp [hs1, hs2]

theorem plls_locked_fields (env : Env) (s : DriverState) :
    (plls_locked env s).2.regs = s.regs ∧
    (plls_locked env s).2.coeffHw = s.coeffHw ∧
    (plls_locked env s).2.coeff_ram = s.coeff_ram ∧
    (plls_locked env s).2.coeff_ram_synced = s.coeff_ram_synced ∧
    (plls_locked env s).2.samplerate = s.samplerate := by
  rcases plls_locked_state env s with h | h <;> rw [h] <;> simp [logOp]

theorem plls_locked_frame (env : Env) (s : DriverState) :
    FlushFrame s (plls_locked env s).2 := by
  rcases plls_locked_state env s with h | h <;> rw [h]
  · exact ⟨rfl, rfl, rfl, [HwOp.read Reg.R_PLLCTL0], by simp [logOp],
      by intro op hop; simp at hop; subst hop; exact Or.inr (Or.inl rfl)⟩
  · exact ⟨rfl, rfl, rfl, [HwOp.read Reg.R_PLLCTL0, HwOp.read Reg.R_PLLCTL0],
      by simp [logOp],
      by intro op hop; simp at hop; subst hop; exact Or.inr (Or.inl rfl)⟩

theorem poll_daccrstat_fields (env : Env) :
    ∀ (fuel : Nat) (s : DriverState),
      (poll_daccrstat env fuel s).2.regs = s.regs ∧
      (poll_daccrstat env fuel s).2.coeffHw = s.coeffHw ∧
      FlushFrame s (poll_daccrstat env fuel s).2 := by
  intro fuel
  induction fuel with
  | zero => intro s; exact ⟨rfl, rfl, FlushFrame.refl s⟩
  | succ fuel ih =>
      intro s
      unfold poll_daccrstat
      rcases h1 : snd_soc_read env s Reg.R_DACCRSTAT with ⟨r1, s1⟩
      have hs1 : s1 = logOp s (.read Reg.R_DACCRSTAT) := by
        have := snd_soc_read_state env s Reg.R_DACCRSTAT
        rw [h1] at this
        exact this
      have hstep : (logOp s (HwOp.read Reg.R_DACCRSTAT)).regs = s.regs ∧
          (logOp s (HwOp.read Reg.R_DACCRSTAT)).coeffHw = s.coeffHw ∧
          FlushFrame s (logOp s (HwOp.read Reg.R_DACCRSTAT)) := by
        refine ⟨rfl, rfl, rfl, rfl, rfl, [HwOp.read Reg.R_DACCRSTAT], by simp [logOp], ?_⟩
        intro op hop
        simp at hop
        subst hop
        exact Or.inr (Or.inr (Or.inl rfl))
      simp only
      split_ifs
      · exact hs1 ▸ hstep
      · exact hs1 ▸ hstep
      · obtain ⟨ra, rb, rc⟩ := ih s1
        obtain ⟨sa, sb, sc⟩ := hs1 ▸ hstep
        exact ⟨ra.trans sa, rb.trans sb, FlushFrame.trans sc rc⟩

theorem poll_daccrstat_sign (env : Env) :
    ∀ (fuel : Nat) (s : DriverState),
      (poll_daccrstat env fuel s).1 = 0 ∨ (poll_daccrstat env fuel s).1 < 0 := by
  intro fuel
  induction fuel with
  | zero => intro s; right; simp [poll_daccrstat, pollFuelOut]
  | succ fuel ih =>
      intro s
      unfold poll_daccrstat
      rcases h1 : snd_soc_read env s Reg.R_DACCRSTAT with ⟨r1, s1⟩
      simp only
      split_ifs with hneg hzero
      · right; exact hneg
      · left; rfl
      · exact ih s1

theorem coeff_write_one_fields (env : Env) (fuel : Nat) (ram : Nat → Nat) (addr : Nat)
    (s : DriverState) :
    (coeff_write_one env fuel ram addr s).2.coeff_ram = s.coeff_ram ∧
    FlushFrame s (coeff_write_one env fuel ram addr s).2 := by
  unfold coeff_write_one
  rcases h1 : poll_daccrstat env fuel s with ⟨r1, s1⟩
  obtain ⟨p1, p2, pf⟩ := poll_daccrstat_fields env fuel s
  rw [h1] at p1 p2 pf
  dsimp only at p1 p2 pf ⊢
  by_cases hn1 : r1 < 0
  · simp only [if_pos hn1]
    exact ⟨pf.1, pf⟩
  simp only [if_neg hn1]
  rcases h2 : regmap_write env s1 Reg.R_DACCRADDR addr with ⟨r2, s2⟩
  obtain ⟨w1, w2, w3, w4, w5⟩ := regmap_write_fields env s1 Reg.R_DACCRADDR addr
  rw [h2] at w1 w2 w3 w4 w5
  dsimp only at w1 w2 w3 w4 w5 ⊢
  have wf : FlushFrame s1 s2 := by
    refine ⟨w2, w3, w4, [HwOp.write Reg.R_DACCRADDR addr], w5, ?_⟩
    intro op hop
    simp at hop
    subst hop
    exact Or.inr (Or.inr (Or.inr (Or.inl rfl)))
  by_cases hn2 : r2 < 0
  · simp only [if_pos hn2]
    exact ⟨(FlushFrame.trans pf wf).1, FlushFrame.trans pf wf⟩
  simp only [if_neg hn2]
  rcases h3 : regmap_bulk_write_coeff env s2 (ram (addr * COEFF_SIZE))
      (ram (addr * COEFF_SIZE + 1)) (ram (addr * COEFF_SIZE + 2)) with ⟨r3, s3⟩
  obtain ⟨b1, b2, b3, b4, b5⟩ := regmap_bulk_write_coeff_fields env s2
      (ram (addr * COEFF_SIZE)) (ram (addr * COEFF_SIZE + 1)) (ram (addr * COEFF_SIZE + 2))
  rw [h3] at b1 b2 b3 b4 b5
  dsimp only at b1 b2 b3 b4 b5 ⊢
  have bf : FlushFrame s2 s3 := by
    refine ⟨b2, b3, b4, [HwOp.bulkWrite Reg.R_DACCRWRL
      [ram (addr * COEFF_SIZE), ram (addr * COEFF_SIZE + 1), ram (addr * COEFF_SIZE + 2)]],
      b5, ?_⟩
    intro op hop
    simp at hop
    subst hop
    exact Or.inr (Or.inr (Or.inr (Or.inr rfl)))
  have all : FlushFrame s s3 := FlushFrame.trans pf (FlushFrame.trans wf bf)
  by_cases hn3 : r3 < 0
  · simp only [if_pos hn3]
    exact ⟨all.1, all⟩
  · simp only [if_neg hn3]
    exact ⟨all.1, all⟩

theorem coeff_write_one_ok (env : Env) (fuel : Nat) (ram : Nat → Nat) (addr : Nat)
    (s : DriverState) (h : ¬ (coeff_write_one env fuel ram addr s).1 < 0) :
    (coeff_write_one env fuel ram addr s).1 = 0 ∧
    ((coeff_write_one env fuel ram addr s).2.coeffHw (addr * 3) = ram (addr * 3) ∧
      (coeff_write_one env fuel ram addr s).2.coeffHw (addr * 3 + 1) = ram (addr * 3 + 1) ∧
      (coeff_write_one env fuel ram addr s).2.coeffHw (addr * 3 + 2) = ram (addr * 3 + 2)) ∧
    (∀ i, i ≠ addr * 3 → i ≠ addr * 3 + 1 → i ≠ addr * 3 + 2 →
      (coeff_write_one env fuel ram addr s).2.coeffHw i = s.coeffHw i) := by
  revert h
  unfold coeff_write_one
  rcases h1 : poll_daccrstat env fuel s with ⟨r1, s1⟩
  obtain ⟨p1, p2, pf⟩ := poll_daccrstat_fields env fuel s
  rw [h1] at p1 p2 pf
  dsimp only at p1 p2 pf ⊢
  by_cases hn1 : r1 < 0
  · simp only [if_pos hn1]
    intro h
    exact absurd hn1 h
  simp only [if_neg hn1]
  rcases henv2 : env.res s1.trace.length with e | v
  · rw [regmap_write_err env s1 Reg.R_DACCRADDR addr e henv2]
    try dsimp only
    rw [if_pos (Int.negSucc_lt_zero e)]
    intro h
    exact absurd (Int.negSucc_lt_zero e) h
  rw [regmap_write_ok env s1 Reg.R_DACCRADDR addr v henv2]
  try dsimp only
  rw [if_neg (by omega : ¬ (0 : Int) < 0)]
  rcases henv3 : env.res ({ logOp s1 (.write Reg.R_DACCRADDR addr) with
      regs := fun r => if r = Reg.R_DACCRADDR then addr else s1.regs r } :
      DriverState).trace.length with e | v2
  · unfold regmap_bulk_write_coeff
    rw [henv3]
    try dsimp only
    rw [if_pos (Int.negSucc_lt_zero e)]
    intro h
    exact absurd (Int.negSucc_lt_zero e) h
  unfold regmap_bulk_write_coeff
  rw [henv3]
  try dsimp only
  rw [if_neg (by omega : ¬ (0 : Int) < 0)]
  intro _
  refine ⟨rfl, ⟨?_, ?_, ?_⟩, ?_⟩
  · simp [COEFF_SIZE, logOp, p2]
  · simp [COEFF_SIZE, logOp, p2]
  · simp [COEFF_SIZE, logOp, p2]
  · intro i hi0 hi1 hi2
    simp [COEFF_SIZE, logOp, p2, hi0, hi1, hi2]

theorem coefficient_ram_write_fields (env : Env) (fuel : Nat) (ram : Nat → Nat) :
    ∀ (cnt addr : Nat) (s : DriverState),
      FlushFrame s (coefficient_ram_write env fuel ram addr cnt s).2 := by
  intro cnt
  induction cnt with
  | zero => intro addr s; exact FlushFrame.refl s
  | succ cnt ih =>
      intro addr s
      unfold coefficient_ram_write
      rcases h1 : coeff_write_one env fuel ram addr s with ⟨r1, s1⟩
      obtain ⟨_, cf⟩ := coeff_write_one_fields env fuel ram addr s
      rw [h1] at cf
      dsimp only at cf ⊢
      by_cases hn : r1 < 0
      · simp only [if_pos hn]
        exact cf
      · simp only [if_neg hn]
        exact FlushFrame.trans cf (ih (addr + 1) s1)

theorem coefficient_ram_write_ok (env : Env) (fuel : Nat) (ram : Nat → Nat) :
    ∀ (cnt addr : Nat) (s : DriverState),
      ¬ (coefficient_ram_write env fuel ram addr cnt s).1 < 0 →
      (coefficient_ram_write env fuel ram addr cnt s).1 = 0 ∧
      (∀ i, addr * 3 ≤ i → i < (addr + cnt) * 3 →
        (coefficient_ram_write env fuel ram addr cnt s).2.coeffHw i = ram i) ∧
      (∀ i, i < addr * 3 ∨ (addr + cnt) * 3 ≤ i →
        (coefficient_ram_write env fuel ram addr cnt s).2.coeffHw i = s.coeffHw i) := by
  intro cnt
  induction cnt with
  | zero =>
      intro addr s _
      refine ⟨rfl, ?_, ?_⟩
      · intro i hlow hhigh
        omega
      · intro i _
        rfl
  | succ cnt ih =>
      intro addr s
      unfold coefficient_ram_write
      rcases h1 : coeff_write_one env fuel ram addr s with ⟨r1, s1⟩
      dsimp only
      by_cases hn : r1 < 0
      · simp only [if_pos hn]
        intro h
        exact absurd hn h
      simp only [if_neg hn]
      intro h
      have hone := coeff_write_one_ok env fuel ram addr s (by rw [h1]; exact hn)
      rw [h1] at hone
      dsimp only at hone
      obtain ⟨-, ⟨hw0, hw1, hw2⟩, hwout⟩ := hone
      obtain ⟨hret, hin, hout⟩ := ih (addr + 1) s1 h
      refine ⟨hret, ?_, ?_⟩
      · intro i hlow hhigh
        by_cases hfirst : i < (addr + 1) * 3
        · have hcase : i = addr * 3 ∨ i = addr * 3 + 1 ∨ i = addr * 3 + 2 := by omega
          have hs1i : s1.coeffHw i = ram i := by
            rcases hcase with rfl | rfl | rfl
            · exact hw0
            · exact hw1
            · exact hw2
          rw [hout i (Or.inl (by omega)), hs1i]
        · exact hin i (by omega) (by omega)
      · intro i hi
        rcases hi with hi | hi
        · rw [hout i (Or.inl (by omega))]
          exact hwout i (by omega) (by omega) (by omega)
        · rw [hout i (Or.inr (by omega))]
          exact hwout i (by omega) (by omega) (by omega)

theorem coefficient_ram_sync_clean (env : Env) (fuel : Nat) (s : DriverState)
    (h : s.coeff_ram_synced = true) :
    coefficient_ram_sync env fuel s = (0, s) := by
  unfold coefficient_ram_sync
  rw [h]
  simp

theorem coefficient_ram_sync_sign (env : Env) (fuel : Nat) (s : DriverState) :
    (coefficient_ram_sync env fuel s).1 = 0 ∨ (coefficient_ram_sync env fuel s).1 < 0 := by
  unfold coefficient_ram_sync
  by_cases hd : s.coeff_ram_synced = false
  · rw [if_pos hd]
    rcases h1 : coefficient_ram_write env fuel s.coeff_ram 0 COEFF_RAM_COEFF_COUNT s
      with ⟨r1, s1⟩
    try dsimp only
    by_cases hn : r1 < 0
    · simp only [if_pos hn]
      right
      exact hn
    · simp only [if_neg hn]
      left
      trivial
  · rw [if_neg hd]
    left
    trivial

theorem coefficient_ram_sync_fields (env : Env) (fuel : Nat) (s : DriverState) :
    (coefficient_ram_sync env fuel s).2.coeff_ram = s.coeff_ram ∧
    (coefficient_ram_sync env fuel s).2.samplerate = s.samplerate ∧
    ∃ l, (coefficient_ram_sync env fuel s).2.trace = s.trace ++ l ∧
      ∀ op ∈ l, pllPathOp op := by
  unfold coefficient_ram_sync
  by_cases hd : s.coeff_ram_synced = false
  · rw [if_pos hd]
    rcases h1 : coefficient_ram_write env fuel s.coeff_ram 0 COEFF_RAM_COEFF_COUNT s
      with ⟨r1, s1⟩
    have hf := coefficient_ram_write_fields env fuel s.coeff_ram COEFF_RAM_COEFF_COUNT 0 s
    rw [h1] at hf
    obtain ⟨f1, f2, f3, l, hl, hp⟩ := hf
    dsimp only at f1 f2 f3 hl ⊢
    by_cases hn : r1 < 0
    · simp only [if_pos hn]
      exact ⟨f1, f3, l, hl, hp⟩
    · simp only [if_neg hn]
      exact ⟨f1, f3, l, hl, hp⟩
  · rw [if_neg hd]
    exact ⟨rfl, rfl, [], by simp, by simp⟩

theorem coefficient_ram_sync_dirty_ok (env : Env) (fuel : Nat) (s : DriverState)
    (hd : s.coeff_ram_synced = false)
    (h : (coefficient_ram_sync env fuel s).1 = 0) :
    (coefficient_ram_sync env fuel s).2.coeff_ram_synced = true ∧
    (∀ i, i < COEFF_RAM_SIZE → (coefficient_ram_sync env fuel s).2.coeffHw i = s.coeff_ram i) := by
  revert h
  unfold coefficient_ram_sync
  rw [if_pos hd]
  rcases h1 : coefficient_ram_write env fuel s.coeff_ram 0 COEFF_RAM_COEFF_COUNT s
    with ⟨r1, s1⟩
  try dsimp only
  by_cases hn : r1 < 0
  · simp only [if_pos hn]
    intro h
    omega
  · simp only [if_neg hn]
    intro _
    have hok := coefficient_ram_write_ok env fuel s.coeff_ram COEFF_RAM_COEFF_COUNT 0 s
      (by rw [h1]; exact hn)
    rw [h1] at hok
    dsimp only at hok
    obtain ⟨-, hin, -⟩ := hok
    refine ⟨by trivial, ?_⟩
    intro i hi
    have hi2 : 0 * 3 ≤ i ∧ i < (0 + COEFF_RAM_COEFF_COUNT) * 3 := by
      simp only [COEFF_RAM_SIZE, COEFF_RAM_COEFF_COUNT, COEFF_RAM_MAX_ADDR, COEFF_SIZE] at hi ⊢
      omega
    exact hin i hi2.1 hi2.2

theorem coefficient_ram_sync_fail (env : Env) (fuel : Nat) (s : DriverState)
    (h : (coefficient_ram_sync env fuel s).1 < 0) :
    (coefficient_ram_sync env fuel s).2.coeff_ram_synced = false := by
  revert h
  unfold coefficient_ram_sync
  by_cases hd : s.coeff_ram_synced = false
  · rw [if_pos hd]
    rcases h1 : coefficient_ram_write env fuel s.coeff_ram 0 COEFF_RAM_COEFF_COUNT s
      with ⟨r1, s1⟩
    have hf := coefficient_ram_write_fields env fuel s.coeff_ram COEFF_RAM_COEFF_COUNT 0 s
    rw [h1] at hf
    try dsimp only
    by_cases hn : r1 < 0
    · simp only [if_pos hn]
      intro _
      rw [hf.2.1, hd]
    · simp only [if_neg hn]
      intro h
      simp at h
  · rw [if_neg hd]
    intro h
    simp at h

theorem power_up_with_trace (env : Env) (fuel : Nat) (s : DriverState) (mask val : Nat) :
    ∃ l, (power_up_with env fuel s mask val).2.trace =
        s.trace ++ HwOp.updateBits Reg.R_PLLCTL1C mask val :: l ∧
      ∀ op ∈ l, pllPathOp op := by
  unfold power_up_with
  rcases h1 : snd_soc_update_bits env s Reg.R_PLLCTL1C mask val with ⟨r1, s1⟩
  have hf := snd_soc_update_bits_fields env s Reg.R_PLLCTL1C mask val
  rw [h1] at hf
  dsimp only at hf ⊢
  obtain ⟨-, -, -, -, htr⟩ := hf
  by_cases hn : r1 < 0
  · simp only [if_pos hn]
    exact ⟨[], by simp [htr], by simp⟩
  simp only [if_neg hn]
  rcases hpl : plls_locked env s1 with ⟨locked, s2⟩
  have hplf := plls_locked_frame env s1
  rw [hpl] at hplf
  obtain ⟨-, -, -, l2, hl2, hp2⟩ := hplf
  dsimp only at hl2 ⊢
  cases locked
  · rw [if_neg Bool.false_ne_true]
    refine ⟨l2, ?_, hp2⟩
    rw [hl2, htr]
    simp
  · rw [if_pos rfl]
    rcases hs : do_pll_lock_dependent_work env fuel s2 with ⟨r2, s3⟩
    have hsf := coefficient_ram_sync_fields env fuel s2
    have hdo : do_pll_lock_dependent_work env fuel s2 = coefficient_ram_sync env fuel s2 := rfl
    rw [hdo] at hs
    rw [hs] at hsf
    obtain ⟨-, -, l3, hl3, hp3⟩ := hsf
    dsimp only at hl3 ⊢
    have htr3 : s3.trace = s.trace ++ HwOp.updateBits Reg.R_PLLCTL1C mask val :: (l2 ++ l3) := by
      rw [hl3, hl2, htr]
      simp
    have hpall : ∀ op ∈ l2 ++ l3, pllPathOp op := by
      intro op hop
      rcases List.mem_append.mp hop with h | h
      · exact hp2 op h
      · exact hp3 op h
    by_cases hn2 : r2 < 0
    · simp only [if_pos hn2]
      exact ⟨l2 ++ l3, htr3, hpall⟩
    · simp only [if_neg hn2]
      exact ⟨l2 ++ l3, htr3, hpall⟩

theorem power_up_with_ok (env : Env) (fuel : Nat) (s : DriverState) (mask val : Nat)
    (h : (power_up_with env fuel s mask val).1 = 0) :
    (power_up_with env fuel s mask val).2.coeff_ram = s.coeff_ram ∧
    (power_up_with env fuel s mask val).2.coeff_ram_synced = true ∧
    (s.coeff_ram_synced = false →
      ∀ i, i < COEFF_RAM_SIZE →
        (power_up_with env fuel s mask val).2.coeffHw i = s.coeff_ram i) := by
  revert h
  unfold power_up_with
  rcases h1 : snd_soc_update_bits env s Reg.R_PLLCTL1C mask val with ⟨r1, s1⟩
  have hf := snd_soc_update_bits_fields env s Reg.R_PLLCTL1C mask val
  rw [h1] at hf
  dsimp only at hf ⊢
  obtain ⟨hhw1, hram1, hsy1, -, -⟩ := hf
  by_cases hn : r1 < 0
  · simp only [if_pos hn]
    intro h
    omega
  simp only [if_neg hn]
  rcases hpl : plls_locked env s1 with ⟨locked, s2⟩
  have hplf := plls_locked_fields env s1
  rw [hpl] at hplf
  obtain ⟨-, hhw2, hram2, hsy2, -⟩ := hplf
  dsimp only at hhw2 hram2 hsy2 ⊢
  cases locked
  · rw [if_neg Bool.false_ne_true]
    intro h
    simp [ENOMSG] at h
  rw [if_pos rfl]
  rcases hs : do_pll_lock_dependent_work env fuel s2 with ⟨r2, s3⟩
  have hdo : do_pll_lock_dependent_work env fuel s2 = coefficient_ram_sync env fuel s2 := rfl
  rw [hdo] at hs
  have hsf := coefficient_ram_sync_fields env fuel s2
  rw [hs] at hsf
  obtain ⟨hram3, -, -⟩ := hsf
  dsimp only at hram3 ⊢
  by_cases hn2 : r2 < 0
  · simp only [if_pos hn2]
    intro h
    omega
  simp only [if_neg hn2]
  intro _
  have hr2 : (coefficient_ram_sync env fuel s2).1 = 0 := by
    rcases coefficient_ram_sync_sign env fuel s2 with h0 | hneg
    · exact h0
    · rw [hs] at hneg
      exact absurd hneg hn2
  have hramall : s3.coeff_ram = s.coeff_ram := by
    rw [hram3, hram2, hram1]
  refine ⟨hramall, ?_, ?_⟩
  · by_cases hd2 : s2.coeff_ram_synced = false
    · have := coefficient_ram_sync_dirty_ok env fuel s2 hd2 hr2
      rw [hs] at this
      exact this.1
    · have hcl : s2.coeff_ram_synced = true := by
        cases hb : s2.coeff_ram_synced
        · exact absurd hb hd2
        · rfl
      have := coefficient_ram_sync_clean env fuel s2 hcl
      rw [this] at hs
      have hs3 : s3 = s2 := by
        have := congrArg Prod.snd hs
        exact this.symm
      rw [hs3, hcl]
  · intro hdirty i hi
    have hd2 : s2.coeff_ram_synced = false := by rw [hsy2, hsy1, hdirty]
    have := coefficient_ram_sync_dirty_ok env fuel s2 hd2 hr2
    rw [hs] at this
    have hcontent := this.2 i hi
    rw [hcontent, hram2, hram1]

theorem power_up_trace (env : Env) (fuel : Nat) (s : DriverState) :
    ∃ l, (power_up_audio_plls env fuel s).2.trace = s.trace ++ l ∧
      ∀ op ∈ l, pllPathOp op := by
  unfold power_up_audio_plls
  by_cases h1 : sample_rate_to_pll_freq_out s.samplerate = 122880000
  · rw [if_pos h1]
    obtain ⟨l, hl, hp⟩ := power_up_with_trace env fuel s RM_PLLCTL1C_PDB_PLL1
      RV_PLLCTL1C_PDB_PLL1_ENABLE
    refine ⟨HwOp.updateBits Reg.R_PLLCTL1C RM_PLLCTL1C_PDB_PLL1
      RV_PLLCTL1C_PDB_PLL1_ENABLE :: l, hl, ?_⟩
    intro op hop
    rcases List.mem_cons.mp hop with rfl | hmem
    · exact Or.inl rfl
    · exact hp op hmem
  rw [if_neg h1]
  by_cases h2 : sample_rate_to_pll_freq_out s.samplerate = 112896000
  · rw [if_pos h2]
    obtain ⟨l, hl, hp⟩ := power_up_with_trace env fuel s RM_PLLCTL1C_PDB_PLL2
      RV_PLLCTL1C_PDB_PLL2_ENABLE
    refine ⟨HwOp.updateBits Reg.R_PLLCTL1C RM_PLLCTL1C_PDB_PLL2
      RV_PLLCTL1C_PDB_PLL2_ENABLE :: l, hl, ?_⟩
    intro op hop
    rcases List.mem_cons.mp hop with rfl | hmem
    · exact Or.inl rfl
    · exact hp op hmem
  · rw [if_neg h2]
    exact ⟨[], by simp, by simp⟩

theorem power_up_ok (env : Env) (fuel : Nat) (s : DriverState)
    (h : (power_up_audio_plls env fuel s).1 = 0) :
    (power_up_audio_plls env fuel s).2.coeff_ram = s.coeff_ram ∧
    (power_up_audio_plls env fuel s).2.coeff_ram_synced = true ∧
    (s.coeff_ram_synced = false →
      ∀ i, i < COEFF_RAM_SIZE →
        (power_up_audio_plls env fuel s).2.coeffHw i = s.coeff_ram i) := by
  revert h
  unfold power_up_audio_plls
  by_cases h1 : sample_rate_to_pll_freq_out s.samplerate = 122880000
  · rw [if_pos h1]
    exact power_up_with_ok env fuel s RM_PLLCTL1C_PDB_PLL1 RV_PLLCTL1C_PDB_PLL1_ENABLE
  rw [if_neg h1]
  by_cases h2 : sample_rate_to_pll_freq_out s.samplerate = 112896000
  · rw [if_pos h2]
    exact power_up_with_ok env fuel s RM_PLLCTL1C_PDB_PLL2 RV_PLLCTL1C_PDB_PLL2_ENABLE
  · rw [if_neg h2]
    intro h
    simp [EINVAL] at h

theorem writeBytes_lt (l : List Nat) : ∀ (f : Nat → Nat) (base i : Nat), i < base →
    writeBytes f base l i = f i := by
  induction l with
  | nil => intro f base i h; rfl
  | cons b bs ih =>
      intro f base i h
      unfold writeBytes
      rw [ih _ (base + 1) i (by omega)]
      rw [if_neg (by omega)]

theorem readBytes_writeBytes (l : List Nat) : ∀ (f : Nat → Nat) (base : Nat),
    readBytes (writeBytes f base l) base l.length = l := by
  induction l with
  | nil => intro f base; rfl
  | cons b bs ih =>
      intro f base
      show readBytes (writeBytes (fun i => if i = base then b else f i) (base + 1) bs)
        base (bs.length + 1) = b :: bs
      unfold readBytes
      congr 1
      · rw [writeBytes_lt bs _ (base + 1) base (by omega)]
        simp
      · exact ih _ (base + 1)

theorem tscs_dsp_put_shadow (env : Env) (fuel : Nat) (addr : Nat) (bytes : List Nat)
    (s : DriverState) (hsz : bytes.length = COEFF_SIZE ∨ bytes.length = BIQUAD_SIZE) :
    (tscs_dsp_put env fuel addr bytes s).2.coeff_ram =
      writeBytes s.coeff_ram (addr * COEFF_SIZE) bytes := by
  unfold tscs_dsp_put
  rw [if_pos hsz]
  try dsimp only
  rcases hpl : plls_locked env (put_shadow s addr bytes) with ⟨locked, s1⟩
  have hplf := plls_locked_fields env (put_shadow s addr bytes)
  rw [hpl] at hplf
  obtain ⟨-, -, hram1, -, -⟩ := hplf
  dsimp only at hram1 ⊢
  have hram0 : (put_shadow s addr bytes).coeff_ram =
      writeBytes s.coeff_ram (addr * COEFF_SIZE) bytes := rfl
  cases locked
  · rw [if_neg Bool.false_ne_true]
    try dsimp only
    rw [hram1, hram0]
  · rw [if_pos rfl]
    rcases hc : coefficient_ram_write env fuel s1.coeff_ram addr
      (bytes.length / COEFF_SIZE) s1 with ⟨r2, s2⟩
    have hcf := coefficient_ram_write_fields env fuel s1.coeff_ram
      (bytes.length / COEFF_SIZE) addr s1
    rw [hc] at hcf
    obtain ⟨hram2, -, -, -⟩ := hcf
    dsimp only at hram2 ⊢
    by_cases hn : r2 < 0
    · simp only [if_pos hn]
      rw [hram2, hram1, hram0]
    · simp only [if_neg hn]
      show s2.coeff_ram = writeBytes s.coeff_ram (addr * COEFF_SIZE) bytes
      rw [hram2, hram1, hram0]

theorem power_up_einval (env : Env) (fuel : Nat) (s : DriverState)
    (h : sample_rate_to_pll_freq_out s.samplerate = -EINVAL) :
    power_up_audio_plls env fuel s = (-EINVAL, s) := by
  unfold power_up_audio_plls
  try dsimp only
  rw [h, if_neg (by norm_num [EINVAL]), if_neg (by norm_num [EINVAL])]

theorem rate_not_classified (r : Int)
    (h : ¬(r = 11025 ∨ r = 22050 ∨ r = 44100 ∨ r = 88200 ∨
        r = 8000 ∨ r = 16000 ∨ r = 32000 ∨ r = 48000 ∨ r = 96000)) :
    sample_rate_to_pll_freq_out r = -EINVAL := by
  unfold sample_rate_to_pll_freq_out
  rw [if_neg (by tauto), if_neg (by tauto)]

theorem setup_sample_rate_samplerate (env : Env) (s : DriverState) (rate : Int) :
    ((setup_sample_rate env rate s).1 = 0 →
      (setup_sample_rate env rate s).2.samplerate = rate) ∧
    ((setup_sample_rate env rate s).1 ≠ 0 →
      (setup_sample_rate env rate s).2.samplerate = s.samplerate) := by
  unfold setup_sample_rate
  rcases hr : rate_to_dacsr rate with - | ⟨br, bm⟩
  · refine ⟨?_, fun _ => rfl⟩
    intro h
    exact absurd h (by norm_num [EINVAL])
  rcases h1 : snd_soc_update_bits env s Reg.R_DACSR RM_DACSR_DBR br with ⟨r1, s1⟩
  have f1 := snd_soc_update_bits_fields env s Reg.R_DACSR RM_DACSR_DBR br
  rw [h1] at f1
  simp only [h1]
  by_cases hn1 : r1 < 0
  · simp only [if_pos hn1]
    refine ⟨?_, fun _ => f1.2.2.2.1⟩
    intro h
    have h0 : r1 = 0 := h
    exact absurd h0 (by omega)
  simp only [if_neg hn1]
  rcases h2 : snd_soc_update_bits env s1 Reg.R_DACSR RM_DACSR_DBM bm with ⟨r2, s2⟩
  have f2 := snd_soc_update_bits_fields env s1 Reg.R_DACSR RM_DACSR_DBM bm
  rw [h2] at f2
  simp only [h2]
  by_cases hn2 : r2 < 0
  · simp only [if_pos hn2]
    refine ⟨?_, fun _ => ?_⟩
    · intro h
      have h0 : r2 = 0 := h
      exact absurd h0 (by omega)
    · show s2.samplerate = s.samplerate
      have e2 : s2.samplerate = s1.samplerate := f2.2.2.2.1
      have e1 : s1.samplerate = s.samplerate := f1.2.2.2.1
      rw [e2, e1]
  simp only [if_neg hn2]
  rcases h3 : snd_soc_update_bits env s2 Reg.R_ADCSR RM_DACSR_DBR br with ⟨r3, s3⟩
  have f3 := snd_soc_update_bits_fields env s2 Reg.R_ADCSR RM_DACSR_DBR br
  rw [h3] at f3
  simp only [h3]
  by_cases hn3 : r3 < 0
  · simp only [if_pos hn3]
    refine ⟨?_, fun _ => ?_⟩
    · intro h
      have h0 : r3 = 0 := h
      exact absurd h0 (by omega)
    · show s3.samplerate = s.samplerate
      have e3 : s3.samplerate = s2.samplerate := f3.2.2.2.1
      have e2 : s2.samplerate = s1.samplerate := f2.2.2.2.1
      have e1 : s1.samplerate = s.samplerate := f1.2.2.2.1
      rw [e3, e2, e1]
  simp only [if_neg hn3]
  rcases h4 : snd_soc_update_bits env s3 Reg.R_ADCSR RM_DACSR_DBM bm with ⟨r4, s4⟩
  have f4 := snd_soc_update_bits_fields env s3 Reg.R_ADCSR RM_DACSR_DBM bm
  rw [h4] at f4
  simp only [h4]
  by_cases hn4 : r4 < 0
  · simp only [if_pos hn4]
    refine ⟨?_, fun _ => ?_⟩
    · intro h
      have h0 : r4 = 0 := h
      exact absurd h0 (by omega)
    · show s4.samplerate = s.samplerate
      have e4 : s4.samplerate = s3.samplerate := f4.2.2.2.1
      have e3 : s3.samplerate = s2.samplerate := f3.2.2.2.1
      have e2 : s2.samplerate = s1.samplerate := f2.2.2.2.1
      have e1 : s1.samplerate = s.samplerate := f1.2.2.2.1
      rw [e4, e3, e2, e1]
  simp only [if_neg hn4]
  refine ⟨fun _ => ?_, fun h => (h (by trivial)).elim⟩
  trivial

theorem setup_sample_rate_envOk_ok (s : DriverState) (rate : Int) (br bm : Nat)
    (hr : rate_to_dacsr rate = some (br, bm)) :
    (setup_sample_rate envOk rate s).1 = 0 := by
  unfold setup_sample_rate
  rw [hr]
  rcases h1 : snd_soc_update_bits envOk s Reg.R_DACSR RM_DACSR_DBR br with ⟨r1, s1⟩
  have e1 := snd_soc_update_bits_ok envOk s Reg.R_DACSR RM_DACSR_DBR br 0 rfl
  rw [h1] at e1
  have hr1 : r1 = 0 := congrArg Prod.fst e1
  simp only [h1]
  rw [if_neg (by omega : ¬ r1 < 0)]
  rcases h2 : snd_soc_update_bits envOk s1 Reg.R_DACSR RM_DACSR_DBM bm with ⟨r2, s2⟩
  have e2 := snd_soc_update_bits_ok envOk s1 Reg.R_DACSR RM_DACSR_DBM bm 0 rfl
  rw [h2] at e2
  have hr2 : r2 = 0 := congrArg Prod.fst e2
  simp only [h2]
  rw [if_neg (by omega : ¬ r2 < 0)]
  rcases h3 : snd_soc_update_bits envOk s2 Reg.R_ADCSR RM_DACSR_DBR br with ⟨r3, s3⟩
  have e3 := snd_soc_update_bits_ok envOk s2 Reg.R_ADCSR RM_DACSR_DBR br 0 rfl
  rw [h3] at e3
  have hr3 : r3 = 0 := congrArg Prod.fst e3
  simp only [h3]
  rw [if_neg (by omega : ¬ r3 < 0)]
  rcases h4 : snd_soc_update_bits envOk s3 Reg.R_ADCSR RM_DACSR_DBM bm with ⟨r4, s4⟩
  have e4 := snd_soc_update_bits_ok envOk s3 Reg.R_ADCSR RM_DACSR_DBM bm 0 rfl
  rw [h4] at e4
  have hr4 : r4 = 0 := congrArg Prod.fst e4
  simp only [h4]
  rw [if_neg (by omega : ¬ r4 < 0)]

/-- C4: the rate→PLL-output-frequency classification yields exactly
112896000 for 11025/22050/44100/88200 and exactly 122880000 for
8000/16000/32000/48000/96000; any other rate makes `power_up_audio_plls`
fail with `-EINVAL` before any register write (state unchanged); and the
derived frequency selects the PLL unit: 122880000 puts PLL1's mask/value
pair first on the bus, 112896000 PLL2's. -/
theorem C4_rate_classification :
    (∀ r : Int,
      ((sample_rate_to_pll_freq_out r = 112896000) ↔
        (r = 11025 ∨ r = 22050 ∨ r = 44100 ∨ r = 88200)) ∧
      ((sample_rate_to_pll_freq_out r = 122880000) ↔
        (r = 8000 ∨ r = 16000 ∨ r = 32000 ∨ r = 48000 ∨ r = 96000)) ∧
      (¬(r = 11025 ∨ r = 22050 ∨ r = 44100 ∨ r = 88200 ∨
          r = 8000 ∨ r = 16000 ∨ r = 32000 ∨ r = 48000 ∨ r = 96000) →
        sample_rate_to_pll_freq_out r = -EINVAL)) ∧
    (∀ (env : Env) (fuel : Nat) (s : DriverState),
      ¬(s.samplerate = 11025 ∨ s.samplerate = 22050 ∨ s.samplerate = 44100 ∨
          s.samplerate = 88200 ∨ s.samplerate = 8000 ∨ s.samplerate = 16000 ∨
          s.samplerate = 32000 ∨ s.samplerate = 48000 ∨ s.samplerate = 96000) →
      power_up_audio_plls env fuel s = (-EINVAL, s)) ∧
    (∀ (env : Env) (fuel : Nat) (s : DriverState),
      sample_rate_to_pll_freq_out s.samplerate = 122880000 →
      ∃ l, (power_up_audio_plls env fuel s).2.trace =
        s.trace ++ HwOp.updateBits Reg.R_PLLCTL1C RM_PLLCTL1C_PDB_PLL1
          RV_PLLCTL1C_PDB_PLL1_ENABLE :: l) ∧
    (∀ (env : Env) (fuel : Nat) (s : DriverState),
      sample_rate_to_pll_freq_out s.samplerate = 112896000 →
      ∃ l, (power_up_audio_plls env fuel s).2.trace =
        s.trace ++ HwOp.updateBits Reg.R_PLLCTL1C RM_PLLCTL1C_PDB_PLL2
          RV_PLLCTL1C_PDB_PLL2_ENABLE :: l) := by
  refine ⟨?_, ?_, ?_, ?_⟩
  · intro r
    unfold sample_rate_to_pll_freq_out
    simp only [EINVAL]
    split_ifs with g1 g2 <;> refine ⟨?_, ?_, ?_⟩ <;>
      first
        | omega
        | (simp only [false_iff, iff_false, true_iff, iff_true]
           omega)
  · intro env fuel s hbad
    exact power_up_einval env fuel s (rate_not_classified s.samplerate (by tauto))
  · intro env fuel s hcls
    unfold power_up_audio_plls
    rw [hcls, if_pos rfl]
    obtain ⟨l, hl, -⟩ := power_up_with_trace env fuel s RM_PLLCTL1C_PDB_PLL1
      RV_PLLCTL1C_PDB_PLL1_ENABLE
    exact ⟨l, hl⟩
  · intro env fuel s hcls
    unfold power_up_audio_plls
    rw [hcls, if_neg (by omega), if_pos rfl]
    obtain ⟨l, hl, -⟩ := power_up_with_trace env fuel s RM_PLLCTL1C_PDB_PLL2
      RV_PLLCTL1C_PDB_PLL2_ENABLE
    exact ⟨l, hl⟩

/-- Witness for C4: rate 12345 is none of the supported rates, and
`power_up_audio_plls` on a state negotiated to 12345 returns `-EINVAL`
leaving the state untouched. -/
theorem C4_rate_classification_witness :
    ¬(((12345 : Int) = 11025 ∨ (12345 : Int) = 22050 ∨ (12345 : Int) = 44100 ∨
        (12345 : Int) = 88200 ∨ (12345 : Int) = 8000 ∨ (12345 : Int) = 16000 ∨
        (12345 : Int) = 32000 ∨ (12345 : Int) = 48000 ∨ (12345 : Int) = 96000)) ∧
    power_up_audio_plls envOk 1 { sDirty with samplerate := 12345 } =
      (-EINVAL, { sDirty with samplerate := 12345 }) := by
  refine ⟨by decide, ?_⟩
  exact C4_rate_classification.2.1 envOk 1 { sDirty with samplerate := 12345 } (by decide)

/-- C9: an unrecognized sample rate makes `setup_sample_rate` fail with
`-EINVAL` and leave the whole state (in particular the committed sample
rate) unchanged; on any failing run the committed sample rate is unchanged,
and only a fully successful run commits the requested rate. -/
theorem C9_negotiate_invalid_rate :
    (∀ rate : Int,
      rate_to_dacsr rate = none ↔
        ¬(rate = 8000 ∨ rate = 16000 ∨ rate = 24000 ∨ rate = 32000 ∨ rate = 48000 ∨
          rate = 96000 ∨ rate = 11025 ∨ rate = 22050 ∨ rate = 44100 ∨ rate = 88200)) ∧
    (∀ (env : Env) (s : DriverState) (rate : Int),
      rate_to_dacsr rate = none → setup_sample_rate env rate s = (-EINVAL, s)) ∧
    (∀ (env : Env) (s : DriverState) (rate : Int),
      (setup_sample_rate env rate s).1 ≠ 0 →
        (setup_sample_rate env rate s).2.samplerate = s.samplerate) ∧
    (∀ (env : Env) (s : DriverState) (rate : Int),
      (setup_sample_rate env rate s).1 = 0 →
        (setup_sample_rate env rate s).2.samplerate = rate) := by
  refine ⟨?_, ?_, ?_, ?_⟩
  · intro rate
    unfold rate_to_dacsr
    split_ifs with g1 g2 g3 g4 g5 g6 g7 g8 g9 g10 <;>
      simp only [reduceCtorEq, false_iff, true_iff] <;> omega
  · intro env s rate hr
    unfold setup_sample_rate
    rw [hr]
  · intro env s rate
    exact (setup_sample_rate_samplerate env s rate).2
  · intro env s rate
    exact (setup_sample_rate_samplerate env s rate).1

/-- Witness for C9: rate 12345 is unrecognized, the call fails with
`-EINVAL` and the state is unchanged. -/
theorem C9_negotiate_invalid_rate_witness :
    rate_to_dacsr 12345 = none ∧
    setup_sample_rate envOk 12345 sDirty = (-EINVAL, sDirty) := by
  refine ⟨by decide, ?_⟩
  exact C9_negotiate_invalid_rate.2.1 envOk sDirty 12345 (by decide)

/-- C10: rate 24000 is accepted and committed by `setup_sample_rate`
(under an all-success transport), yet `sample_rate_to_pll_freq_out` has no
case for 24000, so a subsequent `power_up_audio_plls` on the resulting
state fails with `-EINVAL` before any register write. -/
theorem C10_rate_24000_mismatch :
    ∀ (s : DriverState) (env2 : Env) (fuel : Nat),
      (setup_sample_rate envOk 24000 s).1 = 0 ∧
      (setup_sample_rate envOk 24000 s).2.samplerate = 24000 ∧
      power_up_audio_plls env2 fuel (setup_sample_rate envOk 24000 s).2 =
        (-EINVAL, (setup_sample_rate envOk 24000 s).2) := by
  intro s env2 fuel
  have hok : (setup_sample_rate envOk 24000 s).1 = 0 :=
    setup_sample_rate_envOk_ok s 24000 RV_DACSR_DBR_48 RV_DACSR_DBM_PT5 (by decide)
  have hrate : (setup_sample_rate envOk 24000 s).2.samplerate = 24000 :=
    (setup_sample_rate_samplerate envOk s 24000).1 hok
  refine ⟨hok, hrate, ?_⟩
  apply power_up_einval
  rw [hrate]
  decide

/-- C1 counterexample: starting from a dirty shadow with the PLL reporting
locked, a single 3-byte `tscs_dsp_put` (a partial flush - one slot out of
206) succeeds and sets `coeff_ram_synced = true` (tscs42xx.c:385), refuting
the claim that a partial flush never sets the dirty flag clean and that only
`coefficient_ram_sync` clears it. -/
theorem C1_counterexample :
    sDirty.coeff_ram_synced = false ∧
    (tscs_dsp_put envLocked0 1 2 [17, 34, 51] sDirty).1 = 0 ∧
    (tscs_dsp_put envLocked0 1 2 [17, 34, 51] sDirty).2.coeff_ram_synced = true := by
  decide

/-- C1 (amended): a `tscs_dsp_put` that finds the PLL locked and whose
immediate partial flush succeeds sets `coeff_ram_synced = true` itself
(tscs42xx.c:385); the flag is left dirty only when the PLL check reports
unlocked (deferral). -/
theorem C1_put_clears_dirty_flag :
    ∀ (env : Env) (fuel : Nat) (addr : Nat) (bytes : List Nat) (s : DriverState),
      (bytes.length = COEFF_SIZE ∨ bytes.length = BIQUAD_SIZE) →
      ((plls_locked env (put_shadow s addr bytes)).1 = true →
        (tscs_dsp_put env fuel addr bytes s).1 = 0 →
        (tscs_dsp_put env fuel addr bytes s).2.coeff_ram_synced = true) ∧
      ((plls_locked env (put_shadow s addr bytes)).1 = false →
        (tscs_dsp_put env fuel addr bytes s).2.coeff_ram_synced = false) := by
  intro env fuel addr bytes s hsz
  unfold tscs_dsp_put
  rw [if_pos hsz]
  dsimp only
  rcases hpl : plls_locked env (put_shadow s addr bytes) with ⟨locked, s1⟩
  have hplf := plls_locked_fields env (put_shadow s addr bytes)
  rw [hpl] at hplf
  constructor
  · intro hl
    have hl2 : locked = true := hl
    subst hl2
    rw [if_pos rfl]
    rcases hc : coefficient_ram_write env fuel s1.coeff_ram addr
      (bytes.length / COEFF_SIZE) s1 with ⟨r2, s2⟩
    dsimp only
    by_cases hn : r2 < 0
    · simp only [if_pos hn]
      intro h0
      have : r2 = 0 := h0
      omega
    · simp only [if_neg hn]
      intro _
      trivial
  · intro hl
    have hl2 : locked = false := hl
    subst hl2
    rw [if_neg Bool.false_ne_true]
    show s1.coeff_ram_synced = false
    have : s1.coeff_ram_synced = (put_shadow s addr bytes).coeff_ram_synced :=
      hplf.2.2.2.1
    rw [this]
    rfl

/-- Witness for C1 (amended): with the PLL unlocked, the deferral branch of
`tscs_dsp_put` leaves the dirty flag set. -/
theorem C1_put_clears_dirty_flag_witness :
    (([1, 2, 3] : List Nat).length = COEFF_SIZE ∨
      ([1, 2, 3] : List Nat).length = BIQUAD_SIZE) ∧
    (plls_locked envOk (put_shadow sClean 0 [1, 2, 3])).1 = false ∧
    (tscs_dsp_put envOk 1 0 [1, 2, 3] sClean).2.coeff_ram_synced = false :=
  ⟨Or.inl (by decide), by decide,
    (C1_put_clears_dirty_flag envOk 1 0 [1, 2, 3] sClean (Or.inl (by decide))).2 (by decide)⟩

/-- C2 counterexample: when the first masked disable write of
`power_down_audio_plls` fails, the function returns that error immediately
and the trace holds only the PLL1 disable op - the PLL2 disable write is
never attempted (tscs42xx.c:178-181 jumps to `exit`), refuting the claim
that the first failure does not prevent attempting the second write. -/
theorem C2_counterexample :
    (power_down_audio_plls envFail0 sDirty).1 = -5 ∧
    (power_down_audio_plls envFail0 sDirty).2.trace =
      [HwOp.updateBits Reg.R_PLLCTL1C RM_PLLCTL1C_PDB_PLL1
        RV_PLLCTL1C_PDB_PLL1_DISABLE] := by
  decide

/-- C2 (amended): `power_down_audio_plls` issues up to two independently
checked masked disable writes, one per PLL unit; a failure of the first
write aborts the sequence - the second disable write is not attempted - and
the first failure is the error reported.  When the first write succeeds the
second is attempted, with its failure reported; when both succeed the call
returns 0 after exactly the two disable writes. -/
theorem C2_power_down_first_failure_aborts :
    ∀ (env : Env) (s : DriverState),
      (∀ e, env.res s.trace.length = .error e →
        power_down_audio_plls env s =
          (Int.negSucc e, logOp s (.updateBits Reg.R_PLLCTL1C RM_PLLCTL1C_PDB_PLL1
            RV_PLLCTL1C_PDB_PLL1_DISABLE))) ∧
      (∀ v e, env.res s.trace.length = .ok v →
        env.res (s.trace.length + 1) = .error e →
        (power_down_audio_plls env s).1 = Int.negSucc e ∧
        (power_down_audio_plls env s).2.trace = s.trace ++
          [HwOp.updateBits Reg.R_PLLCTL1C RM_PLLCTL1C_PDB_PLL1 RV_PLLCTL1C_PDB_PLL1_DISABLE,
            HwOp.updateBits Reg.R_PLLCTL1C RM_PLLCTL1C_PDB_PLL2
              RV_PLLCTL1C_PDB_PLL2_DISABLE]) ∧
      (∀ v w, env.res s.trace.length = .ok v →
        env.res (s.trace.length + 1) = .ok w →
        (power_down_audio_plls env s).1 = 0 ∧
        (power_down_audio_plls env s).2.trace = s.trace ++
          [HwOp.updateBits Reg.R_PLLCTL1C RM_PLLCTL1C_PDB_PLL1 RV_PLLCTL1C_PDB_PLL1_DISABLE,
            HwOp.updateBits Reg.R_PLLCTL1C RM_PLLCTL1C_PDB_PLL2
              RV_PLLCTL1C_PDB_PLL2_DISABLE]) := by
  intro env s
  refine ⟨?_, ?_, ?_⟩
  · intro e he
    unfold power_down_audio_plls
    rw [snd_soc_update_bits_err env s Reg.R_PLLCTL1C RM_PLLCTL1C_PDB_PLL1
      RV_PLLCTL1C_PDB_PLL1_DISABLE e he]
    dsimp only
    rw [if_pos (Int.negSucc_lt_zero e)]
  · intro v e hv he
    unfold power_down_audio_plls
    rw [snd_soc_update_bits_ok env s Reg.R_PLLCTL1C RM_PLLCTL1C_PDB_PLL1
      RV_PLLCTL1C_PDB_PLL1_DISABLE v hv]
    dsimp only
    rw [if_neg (by omega : ¬ (0 : Int) < 0)]
    rw [snd_soc_update_bits_err env _ Reg.R_PLLCTL1C RM_PLLCTL1C_PDB_PLL2
      RV_PLLCTL1C_PDB_PLL2_DISABLE e (by simpa [logOp] using he)]
    dsimp only
    rw [if_pos (Int.negSucc_lt_zero e)]
    exact ⟨rfl, by simp [logOp]⟩
  · intro v w hv hw
    unfold power_down_audio_plls
    rw [snd_soc_update_bits_ok env s Reg.R_PLLCTL1C RM_PLLCTL1C_PDB_PLL1
      RV_PLLCTL1C_PDB_PLL1_DISABLE v hv]
    dsimp only
    rw [if_neg (by omega : ¬ (0 : Int) < 0)]
    rw [snd_soc_update_bits_ok env _ Reg.R_PLLCTL1C RM_PLLCTL1C_PDB_PLL2
      RV_PLLCTL1C_PDB_PLL2_DISABLE w (by simpa [logOp] using hw)]
    dsimp only
    rw [if_neg (by omega : ¬ (0 : Int) < 0)]
    exact ⟨rfl, by simp [logOp]⟩

/-- Witness for C2 (amended): concrete aborted run - the first disable write
fails with errno -5 and the call returns immediately. -/
theorem C2_power_down_first_failure_aborts_witness :
    envFail0.res sClean.trace.length = .error 4 ∧
    power_down_audio_plls envFail0 sClean =
      (Int.negSucc 4, logOp sClean (.updateBits Reg.R_PLLCTL1C RM_PLLCTL1C_PDB_PLL1
        RV_PLLCTL1C_PDB_PLL1_DISABLE)) :=
  ⟨rfl, (C2_power_down_first_failure_aborts envFail0 sClean).1 4 rfl⟩

/-- C7 counterexample: with the PLL unlocked, a valid 3-byte
`tscs_dsp_put` succeeds and defers the flush, but it does perform hardware
transactions - the two `R_PLLCTL0` lock-status reads - so the claim's "no
hardware transaction occurs as part of that call" is false. -/
theorem C7_counterexample :
    (tscs_dsp_put envOk 1 0 [1, 2, 3] sClean).1 = 0 ∧
    (tscs_dsp_put envOk 1 0 [1, 2, 3] sClean).2.trace ≠ sClean.trace ∧
    (tscs_dsp_put envOk 1 0 [1, 2, 3] sClean).2.trace =
      [HwOp.read Reg.R_PLLCTL0, HwOp.read Reg.R_PLLCTL0] := by
  decide

/-- C7 (amended): if both lock-status polls report the PLL unlocked, a
valid-size `tscs_dsp_put` accepts the bytes into the shadow, leaves the
dirty flag set, returns success, and issues no coefficient-RAM transaction:
the only bus traffic of the call is the two `R_PLLCTL0` status reads. -/
theorem C7_deferred_write :
    ∀ (env : Env) (fuel : Nat) (addr : Nat) (bytes : List Nat) (s : DriverState),
      (bytes.length = COEFF_SIZE ∨ bytes.length = BIQUAD_SIZE) →
      env.res s.trace.length = .ok 0 →
      env.res (s.trace.length + 1) = .ok 0 →
      (tscs_dsp_put env fuel addr bytes s).1 = 0 ∧
      (tscs_dsp_put env fuel addr bytes s).2.coeff_ram =
        writeBytes s.coeff_ram (addr * COEFF_SIZE) bytes ∧
      (tscs_dsp_put env fuel addr bytes s).2.coeff_ram_synced = false ∧
      (tscs_dsp_put env fuel addr bytes s).2.trace =
        s.trace ++ [HwOp.read Reg.R_PLLCTL0, HwOp.read Reg.R_PLLCTL0] := by
  intro env fuel addr bytes s hsz h0 h1
  have hpl : plls_locked env (put_shadow s addr bytes) =
      (false, logOp (logOp (put_shadow s addr bytes) (.read Reg.R_PLLCTL0))
        (.read Reg.R_PLLCTL0)) := by
    unfold plls_locked snd_soc_read
    rw [show (put_shadow s addr bytes).trace.length = s.trace.length from rfl]
    rw [h0]
    dsimp only
    rw [if_neg (by decide : ¬ Int.ofNat 0 < 0), if_neg (by decide : ¬ 0 < Int.ofNat 0)]
    rw [show (logOp (put_shadow s addr bytes) (HwOp.read Reg.R_PLLCTL0)).trace.length =
      s.trace.length + 1 from by simp [logOp, put_shadow]]
    rw [h1]
    dsimp only
    rw [if_neg (by decide : ¬ Int.ofNat 0 < 0), if_neg (by decide : ¬ 0 < Int.ofNat 0)]
  unfold tscs_dsp_put
  rw [if_pos hsz]
  dsimp only
  rw [hpl]
  dsimp only
  rw [if_neg Bool.false_ne_true]
  exact ⟨rfl, rfl, rfl, by simp [logOp, put_shadow]⟩

/-- Witness for C7 (amended): a concrete deferred write on a clean state. -/
theorem C7_deferred_write_witness :
    envOk.res sDirty.trace.length = .ok 0 ∧
    (tscs_dsp_put envOk 1 5 [9, 9, 9] sDirty).1 = 0 ∧
    (tscs_dsp_put envOk 1 5 [9, 9, 9] sDirty).2.trace =
      sDirty.trace ++ [HwOp.read Reg.R_PLLCTL0, HwOp.read Reg.R_PLLCTL0] := by
  refine ⟨rfl, ?_, ?_⟩
  · exact (C7_deferred_write envOk 1 5 [9, 9, 9] sDirty (Or.inl (by decide)) rfl rfl).1
  · exact (C7_deferred_write envOk 1 5 [9, 9, 9] sDirty (Or.inl (by decide)) rfl rfl).2.2.2

theorem pllPathOp_not_mute (op : HwOp) (h : pllPathOp op) :
    op.reg ≠ Reg.R_CNVRTR0 ∧ op.reg ≠ Reg.R_CNVRTR1 := by
  rcases h with h | h | h | h | h <;> rw [h] <;> exact ⟨by decide, by decide⟩

/-- C3: `coefficient_ram_sync` flushes the entire shadow exactly when the
dirty flag is set on entry: when dirty and the run succeeds, all
`COEFF_RAM_SIZE` shadow bytes (the `COEFF_RAM_COEFF_COUNT` slots from
address 0) are in the hardware coefficient store afterwards, the shadow is
untouched and the flag is set clean; when already clean the call is a no-op
returning the state unchanged (no hardware access); on a mid-sequence flush
failure the flag remains dirty; and after a `power_up_audio_plls` that
returns success (lock confirmed, resync succeeded) the flag is clean and
every previously pending shadow byte has been flushed. -/
theorem C3_resync :
    ∀ (env : Env) (fuel : Nat) (s : DriverState),
      (s.coeff_ram_synced = false →
        (coefficient_ram_sync env fuel s).1 = 0 →
        (coefficient_ram_sync env fuel s).2.coeff_ram_synced = true ∧
        (coefficient_ram_sync env fuel s).2.coeff_ram = s.coeff_ram ∧
        (∀ i, i < COEFF_RAM_SIZE →
          (coefficient_ram_sync env fuel s).2.coeffHw i = s.coeff_ram i)) ∧
      (s.coeff_ram_synced = true → coefficient_ram_sync env fuel s = (0, s)) ∧
      ((coefficient_ram_sync env fuel s).1 < 0 →
        (coefficient_ram_sync env fuel s).2.coeff_ram_synced = false) ∧
      ((power_up_audio_plls env fuel s).1 = 0 →
        (power_up_audio_plls env fuel s).2.coeff_ram_synced = true ∧
        (s.coeff_ram_synced = false →
          ∀ i, i < COEFF_RAM_SIZE →
            (power_up_audio_plls env fuel s).2.coeffHw i = s.coeff_ram i)) := by
  intro env fuel s
  refine ⟨?_, ?_, ?_, ?_⟩
  · intro hd h0
    obtain ⟨ha, hb⟩ := coefficient_ram_sync_dirty_ok env fuel s hd h0
    exact ⟨ha, (coefficient_ram_sync_fields env fuel s).1, hb⟩
  · exact coefficient_ram_sync_clean env fuel s
  · exact coefficient_ram_sync_fail env fuel s
  · intro h0
    obtain ⟨-, hb, hc⟩ := power_up_ok env fuel s h0
    exact ⟨hb, hc⟩

/-- Witness for C3: on a clean state the resync is a hardware-free no-op. -/
theorem C3_resync_witness :
    sClean.coeff_ram_synced = true ∧
    coefficient_ram_sync envOk 1 sClean = (0, sClean) :=
  ⟨rfl, (C3_resync envOk 1 sClean).2.1 rfl⟩

/-- C6: for every coefficient address and accepted payload, a subsequent
`tscs_dsp_get` of the same address and length returns exactly the payload,
for any transport environment (so regardless of PLL lock state or whether
the flush ran or failed) - `tscs_dsp_get` serves the bytes from the shadow
and performs no hardware transaction by construction. -/
theorem C6_read_back :
    ∀ (env : Env) (fuel : Nat) (addr : Nat) (bytes : List Nat) (s : DriverState),
      (bytes.length = COEFF_SIZE ∨ bytes.length = BIQUAD_SIZE) →
      tscs_dsp_get addr bytes.length (tscs_dsp_put env fuel addr bytes s).2 =
        .ok bytes := by
  intro env fuel addr bytes s hsz
  unfold tscs_dsp_get
  rw [if_pos hsz]
  rw [tscs_dsp_put_shadow env fuel addr bytes s hsz]
  rw [readBytes_writeBytes]

/-- Witness for C6: a concrete 3-byte write followed by a read of the same
slot returns the written bytes. -/
theorem C6_read_back_witness :
    (([1, 2, 3] : List Nat).length = COEFF_SIZE ∨
      ([1, 2, 3] : List Nat).length = BIQUAD_SIZE) ∧
    tscs_dsp_get 7 3 (tscs_dsp_put envOk 1 7 [1, 2, 3] sDirty).2 = .ok [1, 2, 3] :=
  ⟨Or.inl (by decide), C6_read_back envOk 1 7 [1, 2, 3] sDirty (Or.inl (by decide))⟩

/-- C8: for both stream directions, the muted→unmuted transition first
powers up the PLL; on power-up failure the error is propagated and the final
state is exactly the power-up failure state, whose added bus traffic never
touches the mute-bit registers `R_CNVRTR0`/`R_CNVRTR1` (stream stays muted);
on power-up success the direction's mute bit is deasserted, and if that
masked write fails a compensating `power_down_audio_plls` runs on the
failure state and the unmute error - not the power-down's result - is
returned. -/
theorem C8_unmute_sequencing :
    ∀ (env : Env) (fuel : Nat) (s : DriverState),
      ((power_up_audio_plls env fuel s).1 < 0 →
        dac_unmute env fuel s = power_up_audio_plls env fuel s ∧
        adc_unmute env fuel s = power_up_audio_plls env fuel s ∧
        ∃ l, (power_up_audio_plls env fuel s).2.trace = s.trace ++ l ∧
          ∀ op ∈ l, op.reg ≠ Reg.R_CNVRTR0 ∧ op.reg ≠ Reg.R_CNVRTR1) ∧
      (¬(power_up_audio_plls env fuel s).1 < 0 →
        ((¬(snd_soc_update_bits env (power_up_audio_plls env fuel s).2
              Reg.R_CNVRTR1 RM_CNVRTR1_DACMU RV_CNVRTR1_DACMU_DISABLE).1 < 0 →
          dac_unmute env fuel s =
            (0, (snd_soc_update_bits env (power_up_audio_plls env fuel s).2
              Reg.R_CNVRTR1 RM_CNVRTR1_DACMU RV_CNVRTR1_DACMU_DISABLE).2)) ∧
        ((snd_soc_update_bits env (power_up_audio_plls env fuel s).2
              Reg.R_CNVRTR1 RM_CNVRTR1_DACMU RV_CNVRTR1_DACMU_DISABLE).1 < 0 →
          dac_unmute env fuel s =
            ((snd_soc_update_bits env (power_up_audio_plls env fuel s).2
                Reg.R_CNVRTR1 RM_CNVRTR1_DACMU RV_CNVRTR1_DACMU_DISABLE).1,
              (power_down_audio_plls env
                (snd_soc_update_bits env (power_up_audio_plls env fuel s).2
                  Reg.R_CNVRTR1 RM_CNVRTR1_DACMU RV_CNVRTR1_DACMU_DISABLE).2).2))) ∧
        ((¬(snd_soc_update_bits env (power_up_audio_plls env fuel s).2
              Reg.R_CNVRTR0 RM_CNVRTR0_ADCMU RV_CNVRTR0_ADCMU_DISABLE).1 < 0 →
          adc_unmute env fuel s =
            (0, (snd_soc_update_bits env (power_up_audio_plls env fuel s).2
              Reg.R_CNVRTR0 RM_CNVRTR0_ADCMU RV_CNVRTR0_ADCMU_DISABLE).2)) ∧
        ((snd_soc_update_bits env (power_up_audio_plls env fuel s).2
              Reg.R_CNVRTR0 RM_CNVRTR0_ADCMU RV_CNVRTR0_ADCMU_DISABLE).1 < 0 →
          adc_unmute env fuel s =
            ((snd_soc_update_bits env (power_up_audio_plls env fuel s).2
                Reg.R_CNVRTR0 RM_CNVRTR0_ADCMU RV_CNVRTR0_ADCMU_DISABLE).1,
              (power_down_audio_plls env
                (snd_soc_update_bits env (power_up_audio_plls env fuel s).2
                  Reg.R_CNVRTR0 RM_CNVRTR0_ADCMU RV_CNVRTR0_ADCMU_DISABLE).2).2)))) := by
  intro env fuel s
  constructor
  · intro hneg
    rcases hp : power_up_audio_plls env fuel s with ⟨r1, s1⟩
    rw [hp] at hneg
    have hneg1 : r1 < 0 := hneg
    obtain ⟨l, hl, hpl⟩ := power_up_trace env fuel s
    rw [hp] at hl
    refine ⟨?_, ?_, ⟨l, hl, fun op hop => pllPathOp_not_mute op (hpl op hop)⟩⟩
    · unfold dac_unmute
      rw [hp]
      dsimp only
      rw [if_pos hneg1]
    · unfold adc_unmute
      rw [hp]
      dsimp only
      rw [if_pos hneg1]
  · intro hpos
    rcases hp : power_up_audio_plls env fuel s with ⟨r1, s1⟩
    rw [hp] at hpos
    have hpos1 : ¬r1 < 0 := hpos
    try rw [hp]
    try dsimp only
    constructor
    · rcases hu : snd_soc_update_bits env s1 Reg.R_CNVRTR1
        RM_CNVRTR1_DACMU RV_CNVRTR1_DACMU_DISABLE with ⟨r2, s2⟩
      try rw [hu]
      try dsimp only
      constructor
      · intro hn2
        unfold dac_unmute
        rw [hp]
        dsimp only
        rw [if_neg hpos1, hu]
        dsimp only
        rw [if_neg hn2]
      · intro hn2
        unfold dac_unmute
        rw [hp]
        dsimp only
        rw [if_neg hpos1, hu]
        dsimp only
        rw [if_pos hn2]
    · rcases hu : snd_soc_update_bits env s1 Reg.R_CNVRTR0
        RM_CNVRTR0_ADCMU RV_CNVRTR0_ADCMU_DISABLE with ⟨r2, s2⟩
      try rw [hu]
      try dsimp only
      constructor
      · intro hn2
        unfold adc_unmute
        rw [hp]
        dsimp only
        rw [if_neg hpos1, hu]
        dsimp only
        rw [if_neg hn2]
      · intro hn2
        unfold adc_unmute
        rw [hp]
        dsimp only
        rw [if_neg hpos1, hu]
        dsimp only
        rw [if_pos hn2]

/-- Witness for C8: with an unclassifiable sample rate the power-up fails
with `-EINVAL` and both unmute paths return that failure unchanged. -/
theorem C8_unmute_sequencing_witness :
    (power_up_audio_plls envOk 1 { sDirty with samplerate := 12345 }).1 < 0 ∧
    dac_unmute envOk 1 { sDirty with samplerate := 12345 } =
      power_up_audio_plls envOk 1 { sDirty with samplerate := 12345 } :=
  ⟨by decide,
    ((C8_unmute_sequencing envOk 1 { sDirty with samplerate := 12345 }).1 (by decide)).1⟩

theorem get_pll_ctl_none_iff (f : Int) :
    get_pll_ctl f = none ↔ ∀ p ∈ pll_ctls, p.input_freq ≠ f := by
  unfold get_pll_ctl
  rw [List.find?_eq_none]
  constructor
  · intro h p hp
    simpa using h p hp
  · intro h p hp
    simpa using h p hp

theorem get_pll_ctl_some_spec (f : Int) (p : pll_ctl) (h : get_pll_ctl f = some p) :
    p.input_freq = f ∧ p ∈ pll_ctls := by
  unfold get_pll_ctl at h
  refine ⟨?_, List.mem_of_find?_eq_some h⟩
  simpa using List.find?_some h

theorem apply_settings_ok (env : Env) :
    ∀ (L : List reg_setting) (s : DriverState),
      (∀ k, k < L.length → ∃ v, env.res (s.trace.length + k) = .ok v) →
      (apply_settings env L s).1 = 0 ∧
      (apply_settings env L s).2.trace =
        s.trace ++ L.map (fun r => HwOp.updateBits r.addr r.mask r.val) := by
  intro L
  induction L with
  | nil =>
      intro s _
      exact ⟨rfl, by simp [apply_settings]⟩
  | cons r rest ih =>
      intro s h
      unfold apply_settings
      obtain ⟨v, hv⟩ := h 0 (by simp)
      rw [snd_soc_update_bits_ok env s r.addr r.mask r.val v (by simpa using hv)]
      dsimp only
      rw [if_neg (by omega : ¬ (0 : Int) < 0)]
      have hlen : ({ logOp s (HwOp.updateBits r.addr r.mask r.val) with
          regs := updBits s.regs r.addr r.mask r.val } : DriverState).trace.length =
          s.trace.length + 1 := by
        simp [logOp]
      have hargs : ∀ k, k < rest.length →
          ∃ v2, env.res (({ logOp s (HwOp.updateBits r.addr r.mask r.val) with
            regs := updBits s.regs r.addr r.mask r.val } : DriverState).trace.length + k) =
            .ok v2 := by
        intro k hk
        rw [hlen]
        have h2 := h (k + 1) (by simp; omega)
        have heq : s.trace.length + 1 + k = s.trace.length + (k + 1) := by omega
        rw [heq]
        exact h2
      have hrec := ih _ hargs
      refine ⟨hrec.1, ?_⟩
      rw [hrec.2]
      simp [logOp]

theorem apply_settings_fail (env : Env) :
    ∀ (L : List reg_setting) (k : Nat) (s : DriverState) (e : Nat),
      k < L.length →
      (∀ j, j < k → ∃ v, env.res (s.trace.length + j) = .ok v) →
      env.res (s.trace.length + k) = .error e →
      (apply_settings env L s).1 = Int.negSucc e ∧
      (apply_settings env L s).2.trace =
        s.trace ++ (L.take (k + 1)).map (fun r => HwOp.updateBits r.addr r.mask r.val) ∧
      (apply_settings env L s).2.regs = applyRegsList s.regs (L.take k) := by
  intro L
  induction L with
  | nil =>
      intro k s e hk _ _
      exact absurd hk (by simp)
  | cons r rest ih =>
      intro k s e hk hprev herr
      unfold apply_settings
      cases k with
      | zero =>
          rw [snd_soc_update_bits_err env s r.addr r.mask r.val e (by simpa using herr)]
          dsimp only
          rw [if_pos (Int.negSucc_lt_zero e)]
          refine ⟨rfl, ?_, ?_⟩
          · simp [logOp]
          · simp [logOp, applyRegsList]
      | succ k =>
          obtain ⟨v, hv⟩ := hprev 0 (by omega)
          rw [snd_soc_update_bits_ok env s r.addr r.mask r.val v (by simpa using hv)]
          dsimp only
          rw [if_neg (by omega : ¬ (0 : Int) < 0)]
          have hlen : ({ logOp s (HwOp.updateBits r.addr r.mask r.val) with
              regs := updBits s.regs r.addr r.mask r.val } : DriverState).trace.length =
              s.trace.length + 1 := by
            simp [logOp]
          have hprev2 : ∀ j, j < k →
              ∃ v2, env.res (({ logOp s (HwOp.updateBits r.addr r.mask r.val) with
                regs := updBits s.regs r.addr r.mask r.val } : DriverState).trace.length + j) =
                .ok v2 := by
            intro j hj
            rw [hlen]
            have h2 := hprev (j + 1) (by omega)
            have heq : s.trace.length + 1 + j = s.trace.length + (j + 1) := by omega
            rw [heq]
            exact h2
          have herr2 : env.res (({ logOp s (HwOp.updateBits r.addr r.mask r.val) with
              regs := updBits s.regs r.addr r.mask r.val } : DriverState).trace.length + k) =
              .error e := by
            rw [hlen]
            have heq : s.trace.length + 1 + k = s.trace.length + (k + 1) := by omega
            rw [heq]
            exact herr
          have hrec := ih k _ e (by simpa using Nat.lt_of_succ_lt_succ hk) hprev2 herr2
          refine ⟨hrec.1, ?_, ?_⟩
          · rw [hrec.2.1]
            simp [logOp]
          · rw [hrec.2.2]
            rfl

/-- C5: `get_pll_ctl` is an exact-match pure lookup that returns `none`
exactly for input frequencies absent from the static table, in which case
`set_pll_ctl_from_input_freq` returns `-EINVAL` without touching any
register; every hit is a table entry with exactly
`PLL_REG_SETTINGS_COUNT = 13` settings, and applying it issues the 13 masked
register updates in table order (bus trace equals the settings list); if the
k-th update fails, the sequence aborts right there (exactly k+1 bus
operations), propagates that failure, and the k updates already issued stay
applied (no rollback). -/
theorem C5_pll_table :
    (∀ f : Int, get_pll_ctl f = none ↔ ∀ p ∈ pll_ctls, p.input_freq ≠ f) ∧
    (∀ (env : Env) (f : Int) (s : DriverState), get_pll_ctl f = none →
      set_pll_ctl_from_input_freq env f s = (-EINVAL, s)) ∧
    (∀ (f : Int) (p : pll_ctl), get_pll_ctl f = some p →
      p.input_freq = f ∧ p ∈ pll_ctls ∧ p.settings.length = PLL_REG_SETTINGS_COUNT) ∧
    (∀ (env : Env) (f : Int) (s : DriverState) (p : pll_ctl),
      get_pll_ctl f = some p →
      (∀ k, k < p.settings.length → ∃ v, env.res (s.trace.length + k) = .ok v) →
      (set_pll_ctl_from_input_freq env f s).1 = 0 ∧
      (set_pll_ctl_from_input_freq env f s).2.trace =
        s.trace ++ p.settings.map (fun r => HwOp.updateBits r.addr r.mask r.val)) ∧
    (∀ (env : Env) (f : Int) (s : DriverState) (p : pll_ctl) (k e : Nat),
      get_pll_ctl f = some p → k < p.settings.length →
      (∀ j, j < k → ∃ v, env.res (s.trace.length + j) = .ok v) →
      env.res (s.trace.length + k) = .error e →
      (set_pll_ctl_from_input_freq env f s).1 = Int.negSucc e ∧
      (set_pll_ctl_from_input_freq env f s).2.trace =
        s.trace ++ (p.settings.take (k + 1)).map
          (fun r => HwOp.updateBits r.addr r.mask r.val) ∧
      (set_pll_ctl_from_input_freq env f s).2.regs =
        applyRegsList s.regs (p.settings.take k)) := by
  refine ⟨get_pll_ctl_none_iff, ?_, ?_, ?_, ?_⟩
  · intro env f s h
    unfold set_pll_ctl_from_input_freq
    rw [h]
  · intro f p h
    obtain ⟨h1, h2⟩ := get_pll_ctl_some_spec f p h
    refine ⟨h1, h2, ?_⟩
    have hall : ∀ q ∈ pll_ctls, q.settings.length = PLL_REG_SETTINGS_COUNT := by decide
    exact hall p h2
  · intro env f s p h hargs
    unfold set_pll_ctl_from_input_freq
    rw [h]
    exact apply_settings_ok env p.settings s hargs
  · intro env f s p k e h hk hprev herr
    unfold set_pll_ctl_from_input_freq
    rw [h]
    exact apply_settings_fail env p.settings k s e hk hprev herr

/-- Witness for C5: frequency 0 is absent from the table and the call
returns `-EINVAL` leaving the state untouched. -/
theorem C5_pll_table_witness :
    get_pll_ctl 0 = none ∧
    set_pll_ctl_from_input_freq envOk 0 sClean = (-EINVAL, sClean) :=
  ⟨by decide, C5_pll_table.2.1 envOk 0 sClean (by decide)⟩

end Tscs42xx
